import Mathlib

/-!
Verification of the scatter execution core of the vtgate query router
(`go/vt/vtgate/scatter_conn.go`).  The Go source is shallowly embedded:
pure functions become Lean functions, the per-shard closures become
functions from an explicit environment (the tablet query services) and the
session state to an outcome record, and the parallel fan-out of
`multiGoTransaction` is modelled as a fold over the resolved shards
(the shared result and session are mutex-protected in the source, so any
linearization of the closures is a faithful model of one execution).
Machine integers (int64 transaction and reserved ids) are modelled as `Int`;
none of the embedded code relies on overflow.
-/

namespace Vitess

/-- Tablet kinds (topodata.TabletType, restricted to the kinds the scatter
core distinguishes). -/
inductive TabletType where
  | primary
  | replica
  | rdonly
deriving DecidableEq

/-- Stable identity of one physical tablet (topodata.TabletAlias). -/
structure TabletAlias where
  cell : String
  uid : Nat
deriving DecidableEq

/-- Logical address of a data partition (query.Target). -/
structure Target where
  keyspace : String
  shard : String
  tabletType : TabletType
deriving DecidableEq

/-- Error code set used by vterrors (vtrpcpb.Code, restricted to the codes
the scatter core mentions). -/
inductive ErrCode where
  | OK
  | INTERNAL
  | INVALID_ARGUMENT
  | ALREADY_EXISTS
  | FAILED_PRECONDITION
  | RESOURCE_EXHAUSTED
  | ABORTED
  | UNAVAILABLE
  | DEADLINE_EXCEEDED
  | NOT_FOUND
  | CLUSTER_EVENT
deriving DecidableEq

/-- An error value.  `code` is the vterrors code.  The remaining fields model
the information `wasConnectionClosed` and `requireNewQS` extract from the
error. Modelled from the spec: the mysql package (not part of the sources
under verification) converts an error to a SQL error with a numeric code
(`sqlNum` models `mysql.NewSQLErrorFromError(err).Number()`), and the three
regular-expression matches on the error text are modelled as the boolean
fields `txClosedMatch` (pattern `transaction [a-z0-9:]+ (ended|not found)`),
`wrongTabletMatch` (vterrors.RxWrongTablet) and `opMatch` (vterrors.RxOp). -/
structure VtError where
  code : ErrCode
  msg : String
  sqlNum : Nat
  txClosedMatch : Bool
  wrongTabletMatch : Bool
  opMatch : Bool
deriving DecidableEq

/-- Builds an error the scatter core itself raises (vterrors.Errorf); such
errors carry no mysql-level code and match none of the patterns. -/
def mkVtError (code : ErrCode) (msg : String) : VtError :=
  { code := code, msg := msg, sqlNum := 0,
    txClosedMatch := false, wrongTabletMatch := false, opMatch := false }

/-- mysql.CRServerGone. -/
def CRServerGone : Nat := 2006

/-- mysql.CRServerLost. -/
def CRServerLost : Nat := 2013

/-- mysql.ERQueryInterrupted. -/
def ERQueryInterrupted : Nat := 1317

/-- Embedding of `wasConnectionClosed` from scatter_conn.go. -/
def wasConnectionClosed (e : VtError) : Bool :=
  e.sqlNum == CRServerGone ||
  e.sqlNum == CRServerLost ||
  (e.sqlNum == ERQueryInterrupted && e.txClosedMatch)

/-- Embedding of `requireNewQS` from scatter_conn.go (the `target` argument
is nullable in the source, hence the `Option`). -/
def requireNewQS (e : VtError) (target : Option Target) : Bool :=
  (e.code == ErrCode.FAILED_PRECONDITION && e.wrongTabletMatch) ||
  (e.code == ErrCode.CLUSTER_EVENT &&
    ((match target with
      | some t => t.tabletType == TabletType.primary
      | none => false) || e.opMatch))

/-- Query result (sqltypes.Result, restricted to the fields the scatter core
inspects: the field schema and the rows). -/
structure Result where
  fields : List String
  rows : List (List String)
deriving DecidableEq

/-- Empty result, the value `new(sqltypes.Result)` starts from. -/
def emptyResult : Result := { fields := [], rows := [] }

/-- Modelled from the spec: `sqltypes.Result.AppendResult` (not part of the
sources under verification) merges a per-shard result into the accumulated
one: the field schema is taken from the first non-empty contributor and the
rows are concatenated. -/
def Result.appendResult (qr inner : Result) : Result :=
  { fields := if qr.fields.isEmpty then inner.fields else qr.fields,
    rows := qr.rows ++ inner.rows }

/-- One per-shard bound query (querypb.BoundQuery). -/
structure BoundQuery where
  sql : String
  bindVars : List (String × String)
deriving DecidableEq

/-- Persistent per-shard record inside a session
(vtgatepb.Session_ShardSession). -/
structure ShardSession where
  target : Target
  transactionId : Int
  reservedId : Int
  tabletAlias : Option TabletAlias
deriving DecidableEq

/-- Transaction mode (single- or multi-shard transactions allowed). -/
inductive TxMode where
  | single
  | multi
deriving DecidableEq

/-- Thread-safe per-client session state.  Modelled from the spec (§4.2,
SafeSession lives outside the sources under verification): a mapping from
Target to ShardSession, an idempotent rollback flag, the in-transaction and
reserved-connection requirements, and the pre-query / savepoint replay
lists. -/
structure SafeSession where
  inTransactionFlag : Bool
  inReservedConnFlag : Bool
  mustRollbackFlag : Bool
  shardSessions : List ShardSession
  preQueries : List String
  savePoints : List String
deriving DecidableEq

/-- Modelled from the spec: `SafeSession.InTransaction`. -/
def SafeSession.inTransaction (s : SafeSession) : Bool := s.inTransactionFlag

/-- Modelled from the spec: `SafeSession.InReservedConn`. -/
def SafeSession.inReservedConn (s : SafeSession) : Bool := s.inReservedConnFlag

/-- Modelled from the spec: `SafeSession.Find(keyspace, shard, tabletType)`
is a pure lookup returning the stored transaction id, reserved id and tablet
alias for the target (zero / zero / nil when no shard session exists). -/
def SafeSession.find (s : SafeSession) (keyspace shard : String)
    (tabletType : TabletType) : Int × Int × Option TabletAlias :=
  match s.shardSessions.find?
      (fun ss => ss.target == Target.mk keyspace shard tabletType) with
  | some ss => (ss.transactionId, ss.reservedId, ss.tabletAlias)
  | none => (0, 0, none)

/-- Modelled from the spec: `SafeSession.SetRollback` sets the idempotent
rollback flag. -/
def SafeSession.setRollback (s : SafeSession) : SafeSession :=
  { s with mustRollbackFlag := true }

/-- Modelled from the spec: `SafeSession.MustRollback` reads the flag. -/
def SafeSession.mustRollback (s : SafeSession) : Bool := s.mustRollbackFlag

/-- Modelled from the spec: `SafeSession.ResetShard(alias)` drops the shard
session matching that tablet alias. -/
def SafeSession.resetShard (s : SafeSession) (tAlias : Option TabletAlias) :
    SafeSession :=
  { s with shardSessions := s.shardSessions.filter (fun ss => ss.tabletAlias != tAlias) }

/-- Error returned by AppendOrUpdate when a second shard joins a
single-shard-only transaction. -/
def multiShardNotAllowedError : VtError :=
  mkVtError ErrCode.INVALID_ARGUMENT "multi-db transaction attempted"

/-- Modelled from the spec: `SafeSession.AppendOrUpdate(shardSession, mode)`
upserts the shard session keyed by Target, and fails if the mode forbids
multi-shard transactions and a second distinct shard is being added. -/
def SafeSession.appendOrUpdate (s : SafeSession) (ss : ShardSession)
    (mode : TxMode) : Except VtError SafeSession :=
  if s.shardSessions.any (fun e => e.target == ss.target) then
    Except.ok { s with shardSessions :=
      s.shardSessions.map (fun e => if e.target == ss.target then ss else e) }
  else if mode == TxMode.single && !s.shardSessions.isEmpty then
    Except.error multiShardNotAllowedError
  else
    Except.ok { s with shardSessions := s.shardSessions ++ [ss] }

/-- Which of the four shard actions is required (`actionNeeded` in
scatter_conn.go; the constructor order matches the Go iota order, so the
zero value is `nothing`). -/
inductive ActionNeeded where
  | nothing
  | reserveBegin
  | reserve
  | begin
deriving DecidableEq

/-- Per-call view of a shard session (`shardActionInfo`). -/
structure ShardActionInfo where
  actionNeeded : ActionNeeded
  reservedID : Int
  transactionID : Int
  tabletAlias : Option TabletAlias
deriving DecidableEq

/-- Embedding of `shardActionInfo.updateTransactionAndReservedID`: when the
transaction id and reserved id are unchanged there is nothing to update in
the session and `nil` is returned; otherwise a copy with the new ids and
alias. -/
def ShardActionInfo.updateTransactionAndReservedID (sai : ShardActionInfo)
    (txID rID : Int) (tAlias : Option TabletAlias) : Option ShardActionInfo :=
  if txID == sai.transactionID && rID == sai.reservedID then
    none
  else
    some { sai with reservedID := rID, transactionID := txID, tabletAlias := tAlias }

/-- Embedding of `actionInfo` from scatter_conn.go: computes the shard action
required for one target from the session state. -/
def actionInfo (target : Target) (session : SafeSession) (autocommit : Bool) :
    ShardActionInfo :=
  if !(session.inTransaction || session.inReservedConn) then
    { actionNeeded := ActionNeeded.nothing, reservedID := 0,
      transactionID := 0, tabletAlias := none }
  else
    let f := session.find target.keyspace target.shard target.tabletType
    let shouldReserve := session.inReservedConn && f.2.1 == 0
    let shouldBegin := session.inTransaction && f.1 == 0 && !autocommit
    let act :=
      if shouldBegin && shouldReserve then ActionNeeded.reserveBegin
      else if shouldReserve then ActionNeeded.reserve
      else if shouldBegin then ActionNeeded.begin
      else ActionNeeded.nothing
    { actionNeeded := act, reservedID := f.2.1, transactionID := f.1,
      tabletAlias := f.2.2 }

/-- Response of `QueryService.Execute` (result and error). -/
structure ExecuteResp where
  qr : Result
  err : Option VtError

/-- Response of `QueryService.BeginExecute` (result, new transaction id,
tablet alias, error). -/
structure BeginExecuteResp where
  qr : Result
  transactionID : Int
  tabletAlias : Option TabletAlias
  err : Option VtError

/-- Response of `QueryService.ReserveExecute` (result, new reserved id,
tablet alias, error). -/
structure ReserveExecuteResp where
  qr : Result
  reservedID : Int
  tabletAlias : Option TabletAlias
  err : Option VtError

/-- Response of `QueryService.ReserveBeginExecute` (result, both new ids,
tablet alias, error). -/
structure ReserveBeginExecuteResp where
  qr : Result
  transactionID : Int
  reservedID : Int
  tabletAlias : Option TabletAlias
  err : Option VtError

/-- Response of `QueryService.StreamExecute` (rows are delivered through the
callback; only the error is returned). -/
structure StreamResp where
  err : Option VtError

/-- Response of `QueryService.BeginStreamExecute`. -/
structure BeginStreamResp where
  transactionID : Int
  tabletAlias : Option TabletAlias
  err : Option VtError

/-- Response of `QueryService.ReserveStreamExecute`. -/
structure ReserveStreamResp where
  reservedID : Int
  tabletAlias : Option TabletAlias
  err : Option VtError

/-- Response of `QueryService.ReserveBeginStreamExecute`. -/
structure ReserveBeginStreamResp where
  transactionID : Int
  reservedID : Int
  tabletAlias : Option TabletAlias
  err : Option VtError

/-- A tablet query service (queryservice.QueryService), modelled as the
deterministic responses one execution observes from each of the eight
operations the scatter core dispatches.  Arguments follow the Go
signatures: target, (pre-queries / savepoints where applicable), sql,
bind variables, and the transaction or reserved id passed in. -/
structure QueryService where
  execute : Target → String → List (String × String) → Int → Int → ExecuteResp
  beginExecute : Target → List String → String → List (String × String) → Int → BeginExecuteResp
  reserveExecute : Target → List String → String → List (String × String) → Int → ReserveExecuteResp
  reserveBeginExecute : Target → List String → List String → String → List (String × String) → ReserveBeginExecuteResp
  streamExecute : Target → String → List (String × String) → Int → Int → StreamResp
  beginStreamExecute : Target → List String → String → List (String × String) → Int → BeginStreamResp
  reserveStreamExecute : Target → List String → String → List (String × String) → Int → ReserveStreamResp
  reserveBeginStreamExecute : Target → List String → List String → String → List (String × String) → ReserveBeginStreamResp

/-- The tablet gateway: itself a query service (dispatching to any live
tablet for the target), plus `QueryServiceByAlias`, which returns the
service bound to exactly one physical tablet or an error when that alias no
longer serves the target. -/
structure Gateway where
  qs : QueryService
  queryServiceByAlias : TabletAlias → Target → Except VtError QueryService

/-- A target paired with the gateway handle to reach it
(srvtopo.ResolvedShard). -/
structure ResolvedShard where
  target : Target
  gateway : Gateway

/-- Ghost observation of how a query service handle was obtained: through
the gateway's tablet selection, or pinned to one tablet alias. -/
inductive QSHandle where
  | gw
  | byAlias (a : TabletAlias)
deriving DecidableEq

/-- Embedding of `getQueryService` from scatter_conn.go: a pinned alias in
the shard action info forces resolution through `QueryServiceByAlias`;
otherwise the gateway itself is used.  The `QSHandle` component is ghost
instrumentation recording which path was taken. -/
def getQueryService (rs : ResolvedShard) (info : ShardActionInfo) :
    Except VtError (QSHandle × QueryService) :=
  match info.tabletAlias with
  | none => Except.ok (QSHandle.gw, rs.gateway.qs)
  | some a =>
      (rs.gateway.queryServiceByAlias a rs.target).map
        (fun q => (QSHandle.byAlias a, q))

/-- The `reset` enumeration of scatter_conn.go. -/
inductive Reset where
  | none
  | shard
  | newQS
deriving DecidableEq

/-- Retry decision of `checkAndResetShardSession`: when the incoming shard
action info has a non-zero reserved id and a zero transaction id and the
error is classified as connection-closed (retry the shard) or as requiring
a new tablet (retry through the gateway), a retry is decided; the
new-tablet check overrides the connection-closed one, exactly as the two
sequential `if` statements in the source do. -/
def shardSessionRetryDecision (info : ShardActionInfo) (e : VtError)
    (target : Target) : Reset :=
  if info.reservedID ≠ 0 ∧ info.transactionID = 0 then
    let r := if wasConnectionClosed e then Reset.shard else Reset.none
    if requireNewQS e (some target) then Reset.newQS else r
  else Reset.none

/-- Embedding of the body of `checkAndResetShardSession`: on a retry
decision other than `none` the shard session for the pinned alias is
dropped (`ResetShard`). -/
def checkAndResetShardSession (info : ShardActionInfo) (e : VtError)
    (session : SafeSession) (target : Target) : Reset × SafeSession :=
  let retry := shardSessionRetryDecision info e target
  if retry ≠ Reset.none then (retry, session.resetShard info.tabletAlias)
  else (retry, session)

/-- The retry condition of the claim, characterizing when
`checkAndResetShardSession` decides to retry: non-zero reserved id, zero
transaction id, and an error classified as connection-closed or as
requiring a new tablet. -/
def retryCond (info : ShardActionInfo) (e : VtError) (target : Target) : Bool :=
  if info.reservedID ≠ 0 ∧ info.transactionID = 0 then
    wasConnectionClosed e || requireNewQS e (some target)
  else false

/-- Precondition error raised when autocommit is requested with a non-zero
incoming transaction id. -/
def autocommitTransactionError (txID : Int) : VtError :=
  mkVtError ErrCode.FAILED_PRECONDITION
    ("in autocommit mode, transactionID should be zero but was: " ++ toString txID)

/-- Ghost record of one tablet call made by a shard closure: which query
service handle it went through and which action was dispatched. -/
structure CallRec where
  handle : QSHandle
  action : ActionNeeded
deriving DecidableEq

/-- Outcome of one shard closure: the updated shard action info handed back
to `multiGoTransaction` (`nil` when nothing changed), the error, the session
after the closure's own session effects (a possible `ResetShard`), the
accumulated result after the closure's append, plus ghost instrumentation:
the trace of tablet calls made and whether the autocommit precondition
check rejected the call. -/
structure ClosureOut where
  newInfo : Option ShardActionInfo
  err : Option VtError
  session : SafeSession
  acc : Result
  calls : List CallRec
  autocommitRejected : Bool

/-- Intermediate outcome of the dispatch switch inside the
`ExecuteMultiShard` closure, before the result append. -/
structure CoreOut where
  newInfo : Option ShardActionInfo
  err : Option VtError
  innerqr : Result
  session : SafeSession
  calls : List CallRec

/-- Builds a `CoreOut` the way the closure's tail does: the new shard info
is `updateTransactionAndReservedID` on the (possibly upgraded) info with the
local transaction id, reserved id and alias variables, irrespective of the
error. -/
def mkCore (infoAfter : ShardActionInfo) (txID rID : Int)
    (tAlias : Option TabletAlias) (err : Option VtError) (innerqr : Result)
    (session : SafeSession) (calls : List CallRec) : CoreOut :=
  { newInfo := infoAfter.updateTransactionAndReservedID txID rID tAlias,
    err := err, innerqr := innerqr, session := session, calls := calls }

/-- Embedding of the dispatch switch of the `ExecuteMultiShard` shard
closure (scatter_conn.go): one of the four tablet calls is made according
to `info.actionNeeded`; in the `nothing` and `begin` branches a failure runs
`retryRequest`, which consults `checkAndResetShardSession` and, when a retry
is decided, upgrades the action (`nothing` to `reserve`, `begin` to
`reserveBegin`), switches to the gateway when a new tablet is required, and
re-issues the call exactly once.  The local `transactionID` / `reservedID` /
alias variables are threaded exactly as the Go assignments do. -/
def executeCore (rs : ResolvedShard) (q : BoundQuery) (session : SafeSession)
    (qs : QueryService) (h : QSHandle) (info : ShardActionInfo) : CoreOut :=
  match info.actionNeeded with
  | ActionNeeded.nothing =>
      let r := qs.execute rs.target q.sql q.bindVars info.transactionID info.reservedID
      match r.err with
      | none =>
          mkCore info info.transactionID info.reservedID none none r.qr session
            [{ handle := h, action := ActionNeeded.nothing }]
      | some e =>
          let rcs := checkAndResetShardSession info e session rs.target
          if rcs.1 = Reset.none then
            mkCore info info.transactionID info.reservedID none (some e) r.qr rcs.2
              [{ handle := h, action := ActionNeeded.nothing }]
          else
            let h' := if rcs.1 = Reset.newQS then QSHandle.gw else h
            let qs' := if rcs.1 = Reset.newQS then rs.gateway.qs else qs
            let info' := { info with actionNeeded := ActionNeeded.reserve }
            let rr := qs'.reserveExecute rs.target rcs.2.preQueries q.sql q.bindVars 0
            mkCore info' info.transactionID rr.reservedID rr.tabletAlias rr.err rr.qr rcs.2
              [{ handle := h, action := ActionNeeded.nothing },
               { handle := h', action := ActionNeeded.reserve }]
  | ActionNeeded.begin =>
      let r := qs.beginExecute rs.target session.savePoints q.sql q.bindVars info.reservedID
      match r.err with
      | none =>
          mkCore info r.transactionID info.reservedID r.tabletAlias none r.qr session
            [{ handle := h, action := ActionNeeded.begin }]
      | some e =>
          let rcs := checkAndResetShardSession info e session rs.target
          if rcs.1 = Reset.none then
            mkCore info r.transactionID info.reservedID r.tabletAlias (some e) r.qr rcs.2
              [{ handle := h, action := ActionNeeded.begin }]
          else
            let h' := if rcs.1 = Reset.newQS then QSHandle.gw else h
            let qs' := if rcs.1 = Reset.newQS then rs.gateway.qs else qs
            let info' := { info with actionNeeded := ActionNeeded.reserveBegin }
            let rr := qs'.reserveBeginExecute rs.target rcs.2.preQueries rcs.2.savePoints q.sql q.bindVars
            mkCore info' rr.transactionID rr.reservedID rr.tabletAlias rr.err rr.qr rcs.2
              [{ handle := h, action := ActionNeeded.begin },
               { handle := h', action := ActionNeeded.reserveBegin }]
  | ActionNeeded.reserve =>
      let rr := qs.reserveExecute rs.target session.preQueries q.sql q.bindVars info.transactionID
      mkCore info info.transactionID rr.reservedID rr.tabletAlias rr.err rr.qr session
        [{ handle := h, action := ActionNeeded.reserve }]
  | ActionNeeded.reserveBegin =>
      let rr := qs.reserveBeginExecute rs.target session.preQueries session.savePoints q.sql q.bindVars
      mkCore info rr.transactionID rr.reservedID rr.tabletAlias rr.err rr.qr session
        [{ handle := h, action := ActionNeeded.reserveBegin }]

/-- Embedding of the full `ExecuteMultiShard` shard closure: the autocommit
precondition check, query service resolution, the dispatch switch, and the
guarded append of the per-shard result to the accumulated result (skipped
once the accumulated row count exceeds `maxMemoryRows`, unless the caller
opted out with `ignoreMaxMemoryRows`). -/
def executeMultiShardOneShard (maxMemoryRows : Nat) (ignoreMaxMemoryRows : Bool)
    (rs : ResolvedShard) (q : BoundQuery) (session : SafeSession)
    (autocommit : Bool) (info : ShardActionInfo) (acc : Result) : ClosureOut :=
  if autocommit ∧ info.transactionID ≠ 0 then
    { newInfo := none, err := some (autocommitTransactionError info.transactionID),
      session := session, acc := acc, calls := [], autocommitRejected := true }
  else
    match getQueryService rs info with
    | Except.error e =>
        { newInfo := none, err := some e, session := session, acc := acc,
          calls := [], autocommitRejected := false }
    | Except.ok (h, qs) =>
        let c := executeCore rs q session qs h info
        match c.err with
        | some e =>
            { newInfo := c.newInfo, err := some e, session := c.session,
              acc := acc, calls := c.calls, autocommitRejected := false }
        | none =>
            let acc' :=
              if ignoreMaxMemoryRows || acc.rows.length ≤ maxMemoryRows then
                acc.appendResult c.innerqr
              else acc
            { newInfo := c.newInfo, err := none, session := c.session,
              acc := acc', calls := c.calls, autocommitRejected := false }

/-- Embedding of the dispatch switch of the `StreamExecuteMulti` shard
closure, which mirrors the `ExecuteMultiShard` one with the four streaming
tablet calls (rows flow through the callback, so no result is accumulated
here; the intermediate record reuses `CoreOut` with an empty inner
result). -/
def streamCore (rs : ResolvedShard) (query : String)
    (bindVars : List (String × String)) (session : SafeSession)
    (qs : QueryService) (h : QSHandle) (info : ShardActionInfo) : CoreOut :=
  match info.actionNeeded with
  | ActionNeeded.nothing =>
      let r := qs.streamExecute rs.target query bindVars info.transactionID info.reservedID
      match r.err with
      | none =>
          mkCore info info.transactionID info.reservedID none none emptyResult session
            [{ handle := h, action := ActionNeeded.nothing }]
      | some e =>
          let rcs := checkAndResetShardSession info e session rs.target
          if rcs.1 = Reset.none then
            mkCore info info.transactionID info.reservedID none (some e) emptyResult rcs.2
              [{ handle := h, action := ActionNeeded.nothing }]
          else
            let h' := if rcs.1 = Reset.newQS then QSHandle.gw else h
            let qs' := if rcs.1 = Reset.newQS then rs.gateway.qs else qs
            let info' := { info with actionNeeded := ActionNeeded.reserve }
            let rr := qs'.reserveStreamExecute rs.target rcs.2.preQueries query bindVars 0
            mkCore info' info.transactionID rr.reservedID rr.tabletAlias rr.err emptyResult rcs.2
              [{ handle := h, action := ActionNeeded.nothing },
               { handle := h', action := ActionNeeded.reserve }]
  | ActionNeeded.begin =>
      let r := qs.beginStreamExecute rs.target session.savePoints query bindVars info.reservedID
      match r.err with
      | none =>
          mkCore info r.transactionID info.reservedID r.tabletAlias none emptyResult session
            [{ handle := h, action := ActionNeeded.begin }]
      | some e =>
          let rcs := checkAndResetShardSession info e session rs.target
          if rcs.1 = Reset.none then
            mkCore info r.transactionID info.reservedID r.tabletAlias (some e) emptyResult rcs.2
              [{ handle := h, action := ActionNeeded.begin }]
          else
            let h' := if rcs.1 = Reset.newQS then QSHandle.gw else h
            let qs' := if rcs.1 = Reset.newQS then rs.gateway.qs else qs
            let info' := { info with actionNeeded := ActionNeeded.reserveBegin }
            let rr := qs'.reserveBeginStreamExecute rs.target rcs.2.preQueries rcs.2.savePoints query bindVars
            mkCore info' rr.transactionID rr.reservedID rr.tabletAlias rr.err emptyResult rcs.2
              [{ handle := h, action := ActionNeeded.begin },
               { handle := h', action := ActionNeeded.reserveBegin }]
  | ActionNeeded.reserve =>
      let rr := qs.reserveStreamExecute rs.target session.preQueries query bindVars info.transactionID
      mkCore info info.transactionID rr.reservedID rr.tabletAlias rr.err emptyResult session
        [{ handle := h, action := ActionNeeded.reserve }]
  | ActionNeeded.reserveBegin =>
      let rr := qs.reserveBeginStreamExecute rs.target session.preQueries session.savePoints query bindVars
      mkCore info rr.transactionID rr.reservedID rr.tabletAlias rr.err emptyResult session
        [{ handle := h, action := ActionNeeded.reserveBegin }]

/-- Embedding of the full `StreamExecuteMulti` shard closure: autocommit
precondition check, query service resolution, and the streaming dispatch
switch.  The accumulated result is passed through untouched (streaming
delivers rows through the callback). -/
def streamExecuteMultiOneShard (rs : ResolvedShard) (query : String)
    (bindVars : List (String × String)) (session : SafeSession)
    (autocommit : Bool) (info : ShardActionInfo) (acc : Result) : ClosureOut :=
  if autocommit ∧ info.transactionID ≠ 0 then
    { newInfo := none, err := some (autocommitTransactionError info.transactionID),
      session := session, acc := acc, calls := [], autocommitRejected := true }
  else
    match getQueryService rs info with
    | Except.error e =>
        { newInfo := none, err := some e, session := session, acc := acc,
          calls := [], autocommitRejected := false }
    | Except.ok (h, qs) =>
        let c := streamCore rs query bindVars session qs h info
        { newInfo := c.newInfo, err := c.err, session := c.session,
          acc := acc, calls := c.calls, autocommitRejected := false }

/-- Shape of a shard action handed to `multiGoTransaction`
(shardActionTransactionFunc, with the session, the accumulated result and
the ghost instrumentation made explicit). -/
def ShardAction : Type :=
  ResolvedShard → Nat → SafeSession → ShardActionInfo → Result → ClosureOut

/-- Embedding of the error half of `endAction`: an error with code
`RESOURCE_EXHAUSTED` or `ABORTED` marks the session for rollback (the
timing and counter updates of `endAction` are not modelled). -/
def endActionSession (err : Option VtError) (s : SafeSession) : SafeSession :=
  match err with
  | some e =>
      if e.code = ErrCode.RESOURCE_EXHAUSTED ∨ e.code = ErrCode.ABORTED then
        s.setRollback
      else s
  | none => s

/-- State threaded through the shard closures of one `multiGoTransaction`
call: the shared session, the accumulated result, the positional error
slots, and ghost counters for the number of `Rollback` and `AppendOrUpdate`
invocations. -/
structure MultiGoState where
  session : SafeSession
  acc : Result
  errs : List (Option VtError)
  rollbackCalls : Nat
  appendCalls : Nat

/-- Embedding of `oneShard` inside `multiGoTransaction`: compute the
`actionInfo`, run the closure, and if it returned an updated info whose
action is not `nothing` and that carries a non-zero transaction or reserved
id, upsert the shard session (an upsert failure replaces the closure's
error); finally `endAction` records the error and may set the rollback
flag. -/
def multiGoOneShard (mode : TxMode) (action : ShardAction)
    (rs : ResolvedShard) (i : Nat) (autocommit : Bool) (st : MultiGoState) :
    MultiGoState :=
  let info := actionInfo rs.target st.session autocommit
  let out := action rs i st.session info st.acc
  match out.newInfo with
  | none =>
      { session := endActionSession out.err out.session, acc := out.acc,
        errs := st.errs ++ [out.err], rollbackCalls := st.rollbackCalls,
        appendCalls := st.appendCalls }
  | some u =>
      if u.actionNeeded ≠ ActionNeeded.nothing ∧
          (u.transactionID ≠ 0 ∨ u.reservedID ≠ 0) then
        match out.session.appendOrUpdate
            { target := rs.target, transactionId := u.transactionID,
              reservedId := u.reservedID, tabletAlias := u.tabletAlias } mode with
        | Except.ok s' =>
            { session := endActionSession out.err s', acc := out.acc,
              errs := st.errs ++ [out.err], rollbackCalls := st.rollbackCalls,
              appendCalls := st.appendCalls + 1 }
        | Except.error ae =>
            { session := endActionSession (some ae) out.session, acc := out.acc,
              errs := st.errs ++ [some ae], rollbackCalls := st.rollbackCalls,
              appendCalls := st.appendCalls + 1 }
      else
        { session := endActionSession out.err out.session, acc := out.acc,
          errs := st.errs ++ [out.err], rollbackCalls := st.rollbackCalls,
          appendCalls := st.appendCalls }

/-- Sequential fold over the resolved shards.  The Go code runs the shard
closures in parallel with all shared state behind mutexes, so any
linearization is a faithful model of one execution; the fold fixes the
shard-index order. -/
def multiGoLoop (mode : TxMode) (action : ShardAction) (autocommit : Bool) :
    List ResolvedShard → Nat → MultiGoState → MultiGoState
  | [], _, st => st
  | rs :: rest, i, st =>
      multiGoLoop mode action autocommit rest (i + 1)
        (multiGoOneShard mode action rs i autocommit st)

/-- Embedding of `multiGoTransaction`: with no shards nothing runs (not even
the rollback check); otherwise all shard closures run and, when the session
was marked for rollback, the transaction connection's rollback is invoked
exactly once over the session (modelled by the ghost `rollbackCalls`
counter, since TxConn lives outside the sources under verification). -/
def multiGoTransaction (mode : TxMode) (action : ShardAction)
    (rss : List ResolvedShard) (session : SafeSession) (autocommit : Bool) :
    MultiGoState :=
  if rss.length = 0 then
    { session := session, acc := emptyResult, errs := [], rollbackCalls := 0,
      appendCalls := 0 }
  else
    let st := multiGoLoop mode action autocommit rss 0
      { session := session, acc := emptyResult, errs := [], rollbackCalls := 0,
        appendCalls := 0 }
    if st.session.mustRollback then
      { st with rollbackCalls := st.rollbackCalls + 1 }
    else st

/-- Internal error returned on mismatched argument lengths. -/
def mismatchedQueriesError : VtError :=
  mkVtError ErrCode.INTERNAL "[BUG] got mismatched number of queries and shards"

/-- Error returned when the in-memory row cap is exceeded. -/
def rowCapError (maxMemoryRows : Nat) : VtError :=
  mkVtError ErrCode.RESOURCE_EXHAUSTED
    ("in-memory row count exceeded allowed limit of " ++ toString maxMemoryRows)

/-- Non-nil errors in recording order (`AllErrorRecorder.GetErrors`). -/
def getErrors (errs : List (Option VtError)) : List VtError :=
  errs.filterMap id

/-- Outcome of `ExecuteMultiShard`: the returned result (`none` models the
Go `nil`), the returned error list, and the final `MultiGoState` as a ghost
observation of the run. -/
structure ExecuteMultiShardOut where
  qr : Option Result
  errs : List VtError
  final : MultiGoState

/-- The `ExecuteMultiShard` shard action, closing over the queries list and
the row-cap configuration. -/
def execAction (maxMemoryRows : Nat) (ignoreMaxMemoryRows : Bool)
    (queries : List BoundQuery) (autocommit : Bool) : ShardAction :=
  fun rs i session info acc =>
    executeMultiShardOneShard maxMemoryRows ignoreMaxMemoryRows rs
      (queries.getD i { sql := "", bindVars := [] }) session autocommit info acc

/-- Embedding of `ExecuteMultiShard`: mismatched argument lengths return a
nil result with a single internal error and no execution; otherwise the
shard closures run through `multiGoTransaction`, and if the accumulated row
count exceeds the cap and the caller did not opt out, a nil result with a
single `RESOURCE_EXHAUSTED` error is returned; otherwise the accumulated
result and the recorded errors. -/
def ExecuteMultiShard (mode : TxMode) (maxMemoryRows : Nat)
    (rss : List ResolvedShard) (queries : List BoundQuery)
    (session : SafeSession) (autocommit : Bool) (ignoreMaxMemoryRows : Bool) :
    ExecuteMultiShardOut :=
  if rss.length ≠ queries.length then
    { qr := none, errs := [mismatchedQueriesError],
      final := { session := session, acc := emptyResult, errs := [],
                 rollbackCalls := 0, appendCalls := 0 } }
  else
    let st := multiGoTransaction mode
      (execAction maxMemoryRows ignoreMaxMemoryRows queries autocommit)
      rss session autocommit
    if !ignoreMaxMemoryRows && st.acc.rows.length > maxMemoryRows then
      { qr := none, errs := [rowCapError maxMemoryRows], final := st }
    else
      { qr := some st.acc, errs := getErrors st.errs, final := st }

/-- The `StreamExecuteMulti` shard action, closing over the query and the
per-shard bind variables. -/
def streamAction (query : String) (bindVars : List (List (String × String)))
    (autocommit : Bool) : ShardAction :=
  fun rs i session info acc =>
    streamExecuteMultiOneShard rs query (bindVars.getD i []) session
      autocommit info acc

/-- Embedding of `StreamExecuteMulti`: the shard closures run through
`multiGoTransaction` and the recorded errors are returned (rows flow
through the callback funnel). -/
def StreamExecuteMulti (mode : TxMode) (query : String)
    (rss : List ResolvedShard) (bindVars : List (List (String × String)))
    (session : SafeSession) (autocommit : Bool) :
    List VtError × MultiGoState :=
  let st := multiGoTransaction mode (streamAction query bindVars autocommit)
    rss session autocommit
  (getErrors st.errs, st)

/-- Internal protocol-violation error of the streaming funnel. -/
def rowsBeforeFieldsError : VtError :=
  mkVtError ErrCode.INTERNAL "received rows before fields"

/-- Outcome of one `processOneStreamingResult` step: the new value of the
fields-already-sent flag, whether the caller's callback was invoked (ghost
observation), and the returned error. -/
structure StreamFunnelOut where
  fieldSent : Bool
  invoked : Bool
  ret : Option VtError

/-- Embedding of `processOneStreamingResult` (the mutex acquisition is the
linearization point; the step itself is sequential): after fields were sent
a message with no rows is dropped without invoking the callback; before
fields were sent a message with an empty field schema is an internal error;
otherwise the flag is set and the callback is invoked with the message. -/
def processOneStreamingResult (fieldSent : Bool) (qr : Result)
    (callback : Result → Option VtError) : StreamFunnelOut :=
  if fieldSent then
    if qr.rows.length = 0 then
      { fieldSent := fieldSent, invoked := false, ret := none }
    else
      { fieldSent := fieldSent, invoked := true, ret := callback qr }
  else
    if qr.fields.length = 0 then
      { fieldSent := fieldSent, invoked := false, ret := some rowsBeforeFieldsError }
    else
      { fieldSent := true, invoked := true, ret := callback qr }

/-- Embedding of `timeTracker`: a map from targets to the timestamp of the
first failure since the last good delivery.  Time is modelled as `Nat`
(monotonic nanoseconds). -/
structure TimeTracker where
  timestamps : List (Target × Nat)
deriving DecidableEq

/-- Embedding of `timeTracker.Record`: records `now` when no timestamp is
present and keeps returning the recorded value until the next `Reset`. -/
def TimeTracker.record (tt : TimeTracker) (target : Target) (now : Nat) :
    Nat × TimeTracker :=
  match tt.timestamps.find? (fun p => p.1 == target) with
  | some p => (p.2, tt)
  | none => (now, { timestamps := tt.timestamps ++ [(target, now)] })

/-- Embedding of `timeTracker.Reset`. -/
def TimeTracker.reset (tt : TimeTracker) (target : Target) : TimeTracker :=
  { timestamps := tt.timestamps.filter (fun p => p.1 != target) }

/-- How one `gateway.MessageStream` invocation ended: clean return, EOF, or
an error. -/
inductive StreamEnd where
  | ok
  | eof
  | errv (e : VtError)
deriving DecidableEq

/-- The `DEADLINE_EXCEEDED` error surfaced when a message stream has
repeatedly failed for longer than the grace period. -/
def messageStreamDeadlineError : VtError :=
  mkVtError ErrCode.DEADLINE_EXCEEDED
    "message stream has repeatedly failed for longer than the grace period"

/-- Result of one iteration of the per-shard `MessageStream` retry loop:
either the loop returns (recording whether the shared context was cancelled
by this shard and with which error), or it retries after waiting `wait`
nanoseconds, carrying the updated time tracker. -/
inductive MsgLoopStep where
  | ret (cancelled : Bool) (err : Option VtError)
  | retry (wait : Nat) (tt : TimeTracker)
deriving DecidableEq

/-- Embedding of one iteration of the `for` loop inside the `MessageStream`
shard closure: a stream that ended with a non-transient error (not nil, not
EOF, not `UNAVAILABLE`) cancels the shared context and surfaces the error;
otherwise, if the shared context is already done the loop returns without
error; otherwise the first-failure timestamp is recorded and, when at least
the grace period has elapsed since it, the shared context is cancelled and
`DEADLINE_EXCEEDED` is surfaced; otherwise the loop waits a fifth of the
grace period (returning without error if the context is cancelled during
the wait) and retries. -/
def messageStreamIteration (gracePeriod now : Nat) (target : Target)
    (streamEnd : StreamEnd) (ctxDone ctxDoneDuringWait : Bool)
    (tt : TimeTracker) : MsgLoopStep :=
  match streamEnd with
  | StreamEnd.errv e =>
      if e.code ≠ ErrCode.UNAVAILABLE then
        MsgLoopStep.ret true (some e)
      else
        messageStreamRetryPath gracePeriod now target ctxDone ctxDoneDuringWait tt
  | _ => messageStreamRetryPath gracePeriod now target ctxDone ctxDoneDuringWait tt
where
  messageStreamRetryPath (gracePeriod now : Nat) (target : Target)
      (ctxDone ctxDoneDuringWait : Bool) (tt : TimeTracker) : MsgLoopStep :=
    if ctxDone then MsgLoopStep.ret false none
    else
      let rec1 := tt.record target now
      if gracePeriod ≤ now - rec1.1 then
        MsgLoopStep.ret true (some messageStreamDeadlineError)
      else if ctxDoneDuringWait then MsgLoopStep.ret false none
      else MsgLoopStep.retry (gracePeriod / 5) rec1.2

/-- A stream ending the `MessageStream` loop treats as transient: clean
return (nil), EOF, or an error with code `UNAVAILABLE`. -/
def transientEnd (se : StreamEnd) : Bool :=
  match se with
  | StreamEnd.ok => true
  | StreamEnd.eof => true
  | StreamEnd.errv e => e.code == ErrCode.UNAVAILABLE

/-- The condition under which `multiGoTransaction` upserts a shard session:
the closure returned an updated info whose action is not `nothing` and
whose transaction id or reserved id is non-zero. -/
def appendCond (o : Option ShardActionInfo) : Bool :=
  match o with
  | none => false
  | some u =>
      decide (u.actionNeeded ≠ ActionNeeded.nothing ∧
        (u.transactionID ≠ 0 ∨ u.reservedID ≠ 0))

/-- Concrete target used by the witness scenarios. -/
def demoTarget : Target :=
  { keyspace := "ks", shard := "0", tabletType := TabletType.primary }

/-- Concrete tablet alias used by the witness scenarios. -/
def demoAlias : TabletAlias := { cell := "zone1", uid := 100 }

/-- Concrete one-row result used by the witness scenarios. -/
def demoResult : Result := { fields := ["id"], rows := [["1"]] }

/-- Concrete bound query used by the witness scenarios. -/
def demoQuery : BoundQuery := { sql := "select id from t", bindVars := [] }

/-- A connection-closed error (mysql CRServerGone) as observed after a
tablet restart. -/
def serverGoneError : VtError :=
  { code := ErrCode.UNAVAILABLE, msg := "server has gone away",
    sqlNum := CRServerGone, txClosedMatch := false,
    wrongTabletMatch := false, opMatch := false }

/-- An `ABORTED` tablet error used by the witness scenarios. -/
def abortedError : VtError := mkVtError ErrCode.ABORTED "transaction aborted"

/-- A query service whose calls all succeed. -/
def demoQS : QueryService :=
  { execute := fun _ _ _ _ _ => { qr := demoResult, err := none },
    beginExecute := fun _ _ _ _ _ =>
      { qr := demoResult, transactionID := 7, tabletAlias := some demoAlias, err := none },
    reserveExecute := fun _ _ _ _ _ =>
      { qr := demoResult, reservedID := 9, tabletAlias := some demoAlias, err := none },
    reserveBeginExecute := fun _ _ _ _ _ =>
      { qr := demoResult, transactionID := 7, reservedID := 9,
        tabletAlias := some demoAlias, err := none },
    streamExecute := fun _ _ _ _ _ => { err := none },
    beginStreamExecute := fun _ _ _ _ _ =>
      { transactionID := 7, tabletAlias := some demoAlias, err := none },
    reserveStreamExecute := fun _ _ _ _ _ =>
      { reservedID := 9, tabletAlias := some demoAlias, err := none },
    reserveBeginStreamExecute := fun _ _ _ _ _ =>
      { transactionID := 7, reservedID := 9, tabletAlias := some demoAlias,
        err := none } }

/-- A query service whose non-reserving calls fail with a connection-closed
error while the reserving calls succeed (a tablet whose reserved connection
was lost). -/
def lostConnQS : QueryService :=
  { demoQS with
    execute := fun _ _ _ _ _ => { qr := emptyResult, err := some serverGoneError },
    beginExecute := fun _ _ _ _ _ =>
      { qr := emptyResult, transactionID := 0, tabletAlias := none,
        err := some serverGoneError },
    streamExecute := fun _ _ _ _ _ => { err := some serverGoneError },
    beginStreamExecute := fun _ _ _ _ _ =>
      { transactionID := 0, tabletAlias := none, err := some serverGoneError } }

/-- A query service whose execute fails with `ABORTED`. -/
def abortingQS : QueryService :=
  { demoQS with
    execute := fun _ _ _ _ _ => { qr := emptyResult, err := some abortedError } }

/-- Gateway over `demoQS`; by-alias resolution also succeeds. -/
def demoGateway : Gateway :=
  { qs := demoQS, queryServiceByAlias := fun _ _ => Except.ok demoQS }

/-- Resolved shard over `demoGateway`. -/
def demoRS : ResolvedShard := { target := demoTarget, gateway := demoGateway }

/-- Resolved shard whose tablet lost its reserved connection. -/
def lostConnRS : ResolvedShard :=
  { target := demoTarget,
    gateway := { qs := lostConnQS,
                 queryServiceByAlias := fun _ _ => Except.ok lostConnQS } }

/-- Resolved shard whose tablet aborts every execute. -/
def abortingRS : ResolvedShard :=
  { target := demoTarget,
    gateway := { qs := abortingQS,
                 queryServiceByAlias := fun _ _ => Except.ok abortingQS } }

/-- A fresh session: no transaction, no reserved connections. -/
def emptySession : SafeSession :=
  { inTransactionFlag := false, inReservedConnFlag := false,
    mustRollbackFlag := false, shardSessions := [], preQueries := [],
    savePoints := [] }

/-- A session holding a reserved connection (id 42) on `demoTarget`, pinned
to `demoAlias`. -/
def reservedSession : SafeSession :=
  { emptySession with
    inReservedConnFlag := true,
    shardSessions := [{ target := demoTarget, transactionId := 0,
                        reservedId := 42, tabletAlias := some demoAlias }] }

/-- The shard action info of `reservedSession` on `demoTarget`: action
`nothing`, reserved id 42, no transaction. -/
def reservedInfo : ShardActionInfo :=
  { actionNeeded := ActionNeeded.nothing, reservedID := 42,
    transactionID := 0, tabletAlias := some demoAlias }

/-- A callback that always accepts, used by the witness scenarios. -/
def demoCallback : Result → Option VtError := fun _ => none

/-- A time tracker that recorded a first failure at time 0 for
`demoTarget`. -/
def demoTracker : TimeTracker := { timestamps := [(demoTarget, 0)] }

/-- Initial multi-shard state over `reservedSession`, used by the witness
scenarios. -/
def demoState : MultiGoState :=
  { session := reservedSession, acc := emptyResult, errs := [],
    rollbackCalls := 0, appendCalls := 0 }

/-- The claim's "begin" condition: the session is in a transaction, the
stored transaction id for the shard is zero, and autocommit is off. -/
def shouldBeginCond (target : Target) (session : SafeSession)
    (autocommit : Bool) : Prop :=
  session.inTransaction = true ∧
  (session.find target.keyspace target.shard target.tabletType).1 = 0 ∧
  autocommit = false

/-- The claim's "reserve" condition: the session requires reserved
connections and the stored reserved id for the shard is zero. -/
def shouldReserveCond (target : Target) (session : SafeSession) : Prop :=
  session.inReservedConn = true ∧
  (session.find target.keyspace target.shard target.tabletType).2.1 = 0

instance (target : Target) (session : SafeSession) (autocommit : Bool) :
    Decidable (shouldBeginCond target session autocommit) := by
  unfold shouldBeginCond; infer_instance

instance (target : Target) (session : SafeSession) :
    Decidable (shouldReserveCond target session) := by
  unfold shouldReserveCond; infer_instance

/-- C1: `actionInfo` selects `reserveBegin` iff both the begin and the
reserve conditions hold, `begin` iff only the begin condition holds,
`reserve` iff only the reserve condition holds, and `nothing` iff neither
holds (the conditions as stated in the claim: begin needs the session in a
transaction with no stored transaction id and autocommit off; reserve needs
the reserved-connection requirement with no stored reserved id). -/
theorem actionInfo_selects_shard_action (target : Target)
    (session : SafeSession) (autocommit : Bool) :
    ((actionInfo target session autocommit).actionNeeded = ActionNeeded.begin ↔
      (shouldBeginCond target session autocommit ∧
        ¬ shouldReserveCond target session)) ∧
    ((actionInfo target session autocommit).actionNeeded = ActionNeeded.reserve ↔
      (shouldReserveCond target session ∧
        ¬ shouldBeginCond target session autocommit)) ∧
    ((actionInfo target session autocommit).actionNeeded = ActionNeeded.reserveBegin ↔
      (shouldBeginCond target session autocommit ∧
        shouldReserveCond target session)) ∧
    ((actionInfo target session autocommit).actionNeeded = ActionNeeded.nothing ↔
      (¬ shouldBeginCond target session autocommit ∧
        ¬ shouldReserveCond target session)) := by
  unfold actionInfo shouldBeginCond shouldReserveCond
  cases hT : session.inTransaction <;>
    cases hR : session.inReservedConn <;>
      cases hA : autocommit <;>
        by_cases htx : (session.find target.keyspace target.shard target.tabletType).1 = 0 <;>
          by_cases hrid : (session.find target.keyspace target.shard target.tabletType).2.1 = 0 <;>
            simp [hT, hR, hA, htx, hrid]

/-- Helper: `checkAndResetShardSession` leaves the session alone when the
retry condition is not met. -/
theorem checkAndResetShardSession_of_cond_false (info : ShardActionInfo)
    (e : VtError) (session : SafeSession) (target : Target)
    (h : retryCond info e target = false) :
    checkAndResetShardSession info e session target = (Reset.none, session) := by
  have hd : shardSessionRetryDecision info e target = Reset.none := by
    unfold shardSessionRetryDecision
    unfold retryCond at h
    by_cases hc : info.reservedID ≠ 0 ∧ info.transactionID = 0
    · simp only [if_pos hc] at h ⊢
      cases hw : wasConnectionClosed e <;>
        cases hq : requireNewQS e (some target) <;>
          simp [hw, hq] at h ⊢
    · simp [if_neg hc]
  unfold checkAndResetShardSession
  simp [hd]

/-- Helper: `checkAndResetShardSession` drops the pinned shard session and
decides the retry kind when the retry condition is met (`newQS` when a new
tablet is required, else `shard`). -/
theorem checkAndResetShardSession_of_cond_true (info : ShardActionInfo)
    (e : VtError) (session : SafeSession) (target : Target)
    (h : retryCond info e target = true) :
    checkAndResetShardSession info e session target =
      ((if requireNewQS e (some target) then Reset.newQS else Reset.shard),
        session.resetShard info.tabletAlias) := by
  have hc : info.reservedID ≠ 0 ∧ info.transactionID = 0 := by
    unfold retryCond at h
    by_cases hc : info.reservedID ≠ 0 ∧ info.transactionID = 0
    · exact hc
    · simp [if_neg hc] at h
  have hd : shardSessionRetryDecision info e target =
      (if requireNewQS e (some target) then Reset.newQS else Reset.shard) := by
    unfold shardSessionRetryDecision
    unfold retryCond at h
    simp only [if_pos hc] at h ⊢
    cases hw : wasConnectionClosed e <;>
      cases hq : requireNewQS e (some target) <;>
        simp [hw, hq] at h ⊢
  unfold checkAndResetShardSession
  rw [hd]
  cases hq : requireNewQS e (some target) <;> simp [hq]

/-- Helper: the `reserve` branch of the execute dispatch makes exactly one
call and leaves the session alone. -/
theorem executeCore_reserve (rs : ResolvedShard) (q : BoundQuery)
    (session : SafeSession) (qs : QueryService) (h : QSHandle)
    (info : ShardActionInfo) (ha : info.actionNeeded = ActionNeeded.reserve) :
    (executeCore rs q session qs h info).calls =
      [{ handle := h, action := ActionNeeded.reserve }] ∧
    (executeCore rs q session qs h info).session = session := by
  unfold executeCore
  rw [ha]
  exact ⟨rfl, rfl⟩

/-- Helper: the `reserveBegin` branch of the execute dispatch makes exactly
one call and leaves the session alone. -/
theorem executeCore_reserveBegin (rs : ResolvedShard) (q : BoundQuery)
    (session : SafeSession) (qs : QueryService) (h : QSHandle)
    (info : ShardActionInfo)
    (ha : info.actionNeeded = ActionNeeded.reserveBegin) :
    (executeCore rs q session qs h info).calls =
      [{ handle := h, action := ActionNeeded.reserveBegin }] ∧
    (executeCore rs q session qs h info).session = session := by
  unfold executeCore
  rw [ha]
  exact ⟨rfl, rfl⟩

/-- Helper: in the `nothing` branch, a failed execute with the retry
condition met is re-issued exactly once as a `reserve` (through the gateway
when a new tablet is required), after the shard session was reset. -/
theorem executeCore_nothing_retry (rs : ResolvedShard) (q : BoundQuery)
    (session : SafeSession) (qs : QueryService) (h : QSHandle)
    (info : ShardActionInfo) (e : VtError)
    (ha : info.actionNeeded = ActionNeeded.nothing)
    (he : (qs.execute rs.target q.sql q.bindVars info.transactionID info.reservedID).err = some e)
    (hr : retryCond info e rs.target = true) :
    (executeCore rs q session qs h info).calls =
      [{ handle := h, action := ActionNeeded.nothing },
       { handle := if requireNewQS e (some rs.target) then QSHandle.gw else h,
         action := ActionNeeded.reserve }] ∧
    (executeCore rs q session qs h info).session =
      session.resetShard info.tabletAlias := by
  have hc := checkAndResetShardSession_of_cond_true info e session rs.target hr
  unfold executeCore
  rw [ha]
  simp only [he, hc]
  cases hq : requireNewQS e (some rs.target) <;> simp [hq, mkCore]

/-- Helper: in the `nothing` branch, a failed execute with the retry
condition not met is not re-issued and the session is untouched. -/
theorem executeCore_nothing_noretry (rs : ResolvedShard) (q : BoundQuery)
    (session : SafeSession) (qs : QueryService) (h : QSHandle)
    (info : ShardActionInfo) (e : VtError)
    (ha : info.actionNeeded = ActionNeeded.nothing)
    (he : (qs.execute rs.target q.sql q.bindVars info.transactionID info.reservedID).err = some e)
    (hr : retryCond info e rs.target = false) :
    (executeCore rs q session qs h info).calls =
      [{ handle := h, action := ActionNeeded.nothing }] ∧
    (executeCore rs q session qs h info).session = session := by
  have hc := checkAndResetShardSession_of_cond_false info e session rs.target hr
  unfold executeCore
  rw [ha]
  simp [he, hc, mkCore]

/-- Helper: in the `begin` branch, a failed begin-execute with the retry
condition met is re-issued exactly once as a `reserveBegin`, after the
shard session was reset. -/
theorem executeCore_begin_retry (rs : ResolvedShard) (q : BoundQuery)
    (session : SafeSession) (qs : QueryService) (h : QSHandle)
    (info : ShardActionInfo) (e : VtError)
    (ha : info.actionNeeded = ActionNeeded.begin)
    (he : (qs.beginExecute rs.target session.savePoints q.sql q.bindVars info.reservedID).err = some e)
    (hr : retryCond info e rs.target = true) :
    (executeCore rs q session qs h info).calls =
      [{ handle := h, action := ActionNeeded.begin },
       { handle := if requireNewQS e (some rs.target) then QSHandle.gw else h,
         action := ActionNeeded.reserveBegin }] ∧
    (executeCore rs q session qs h info).session =
      session.resetShard info.tabletAlias := by
  have hc := checkAndResetShardSession_of_cond_true info e session rs.target hr
  unfold executeCore
  rw [ha]
  simp only [he, hc]
  cases hq : requireNewQS e (some rs.target) <;> simp [hq, mkCore]

/-- Helper: in the `begin` branch, a failed begin-execute with the retry
condition not met is not re-issued and the session is untouched. -/
theorem executeCore_begin_noretry (rs : ResolvedShard) (q : BoundQuery)
    (session : SafeSession) (qs : QueryService) (h : QSHandle)
    (info : ShardActionInfo) (e : VtError)
    (ha : info.actionNeeded = ActionNeeded.begin)
    (he : (qs.beginExecute rs.target session.savePoints q.sql q.bindVars info.reservedID).err = some e)
    (hr : retryCond info e rs.target = false) :
    (executeCore rs q session qs h info).calls =
      [{ handle := h, action := ActionNeeded.begin }] ∧
    (executeCore rs q session qs h info).session = session := by
  have hc := checkAndResetShardSession_of_cond_false info e session rs.target hr
  unfold executeCore
  rw [ha]
  simp [he, hc, mkCore]

/-- Helper: stream dispatch, `reserve` branch. -/
theorem streamCore_reserve (rs : ResolvedShard) (query : String)
    (bv : List (String × String)) (session : SafeSession) (qs : QueryService)
    (h : QSHandle) (info : ShardActionInfo)
    (ha : info.actionNeeded = ActionNeeded.reserve) :
    (streamCore rs query bv session qs h info).calls =
      [{ handle := h, action := ActionNeeded.reserve }] ∧
    (streamCore rs query bv session qs h info).session = session := by
  unfold streamCore
  rw [ha]
  exact ⟨rfl, rfl⟩

/-- Helper: stream dispatch, `reserveBegin` branch. -/
theorem streamCore_reserveBegin (rs : ResolvedShard) (query : String)
    (bv : List (String × String)) (session : SafeSession) (qs : QueryService)
    (h : QSHandle) (info : ShardActionInfo)
    (ha : info.actionNeeded = ActionNeeded.reserveBegin) :
    (streamCore rs query bv session qs h info).calls =
      [{ handle := h, action := ActionNeeded.reserveBegin }] ∧
    (streamCore rs query bv session qs h info).session = session := by
  unfold streamCore
  rw [ha]
  exact ⟨rfl, rfl⟩

/-- Helper: stream dispatch, `nothing` branch with retry. -/
theorem streamCore_nothing_retry (rs : ResolvedShard) (query : String)
    (bv : List (String × String)) (session : SafeSession) (qs : QueryService)
    (h : QSHandle) (info : ShardActionInfo) (e : VtError)
    (ha : info.actionNeeded = ActionNeeded.nothing)
    (he : (qs.streamExecute rs.target query bv info.transactionID info.reservedID).err = some e)
    (hr : retryCond info e rs.target = true) :
    (streamCore rs query bv session qs h info).calls =
      [{ handle := h, action := ActionNeeded.nothing },
       { handle := if requireNewQS e (some rs.target) then QSHandle.gw else h,
         action := ActionNeeded.reserve }] ∧
    (streamCore rs query bv session qs h info).session =
      session.resetShard info.tabletAlias := by
  have hc := checkAndResetShardSession_of_cond_true info e session rs.target hr
  unfold streamCore
  rw [ha]
  simp only [he, hc]
  cases hq : requireNewQS e (some rs.target) <;> simp [hq, mkCore]

/-- Helper: stream dispatch, `nothing` branch without retry. -/
theorem streamCore_nothing_noretry (rs : ResolvedShard) (query : String)
    (bv : List (String × String)) (session : SafeSession) (qs : QueryService)
    (h : QSHandle) (info : ShardActionInfo) (e : VtError)
    (ha : info.actionNeeded = ActionNeeded.nothing)
    (he : (qs.streamExecute rs.target query bv info.transactionID info.reservedID).err = some e)
    (hr : retryCond info e rs.target = false) :
    (streamCore rs query bv session qs h info).calls =
      [{ handle := h, action := ActionNeeded.nothing }] ∧
    (streamCore rs query bv session qs h info).session = session := by
  have hc := checkAndResetShardSession_of_cond_false info e session rs.target hr
  unfold streamCore
  rw [ha]
  simp [he, hc, mkCore]

/-- Helper: stream dispatch, `begin` branch with retry. -/
theorem streamCore_begin_retry (rs : ResolvedShard) (query : String)
    (bv : List (String × String)) (session : SafeSession) (qs : QueryService)
    (h : QSHandle) (info : ShardActionInfo) (e : VtError)
    (ha : info.actionNeeded = ActionNeeded.begin)
    (he : (qs.beginStreamExecute rs.target session.savePoints query bv info.reservedID).err = some e)
    (hr : retryCond info e rs.target = true) :
    (streamCore rs query bv session qs h info).calls =
      [{ handle := h, action := ActionNeeded.begin },
       { handle := if requireNewQS e (some rs.target) then QSHandle.gw else h,
         action := ActionNeeded.reserveBegin }] ∧
    (streamCore rs query bv session qs h info).session =
      session.resetShard info.tabletAlias := by
  have hc := checkAndResetShardSession_of_cond_true info e session rs.target hr
  unfold streamCore
  rw [ha]
  simp only [he, hc]
  cases hq : requireNewQS e (some rs.target) <;> simp [hq, mkCore]

/-- Helper: stream dispatch, `begin` branch without retry. -/
theorem streamCore_begin_noretry (rs : ResolvedShard) (query : String)
    (bv : List (String × String)) (session : SafeSession) (qs : QueryService)
    (h : QSHandle) (info : ShardActionInfo) (e : VtError)
    (ha : info.actionNeeded = ActionNeeded.begin)
    (he : (qs.beginStreamExecute rs.target session.savePoints query bv info.reservedID).err = some e)
    (hr : retryCond info e rs.target = false) :
    (streamCore rs query bv session qs h info).calls =
      [{ handle := h, action := ActionNeeded.begin }] ∧
    (streamCore rs query bv session qs h info).session = session := by
  have hc := checkAndResetShardSession_of_cond_false info e session rs.target hr
  unfold streamCore
  rw [ha]
  simp [he, hc, mkCore]

/-- Helper: past the autocommit check and query service resolution, the
`ExecuteMultiShard` closure exposes the dispatch switch outcome
unchanged. -/
theorem executeOneShard_core (maxRows : Nat) (ignore : Bool)
    (rs : ResolvedShard) (q : BoundQuery) (session : SafeSession)
    (autocommit : Bool) (info : ShardActionInfo) (acc : Result)
    (h : QSHandle) (qs : QueryService)
    (hac : ¬(autocommit = true ∧ info.transactionID ≠ 0))
    (hqs : getQueryService rs info = Except.ok (h, qs)) :
    (executeMultiShardOneShard maxRows ignore rs q session autocommit info acc).calls =
      (executeCore rs q session qs h info).calls ∧
    (executeMultiShardOneShard maxRows ignore rs q session autocommit info acc).session =
      (executeCore rs q session qs h info).session ∧
    (executeMultiShardOneShard maxRows ignore rs q session autocommit info acc).newInfo =
      (executeCore rs q session qs h info).newInfo ∧
    (executeMultiShardOneShard maxRows ignore rs q session autocommit info acc).err =
      (executeCore rs q session qs h info).err := by
  unfold executeMultiShardOneShard
  rw [if_neg hac, hqs]
  cases he : (executeCore rs q session qs h info).err <;> simp [he]

/-- Helper: past the autocommit check and query service resolution, the
`StreamExecuteMulti` closure exposes the dispatch switch outcome
unchanged. -/
theorem streamOneShard_core (rs : ResolvedShard) (query : String)
    (bv : List (String × String)) (session : SafeSession) (autocommit : Bool)
    (info : ShardActionInfo) (acc : Result) (h : QSHandle) (qs : QueryService)
    (hac : ¬(autocommit = true ∧ info.transactionID ≠ 0))
    (hqs : getQueryService rs info = Except.ok (h, qs)) :
    (streamExecuteMultiOneShard rs query bv session autocommit info acc).calls =
      (streamCore rs query bv session qs h info).calls ∧
    (streamExecuteMultiOneShard rs query bv session autocommit info acc).session =
      (streamCore rs query bv session qs h info).session ∧
    (streamExecuteMultiOneShard rs query bv session autocommit info acc).newInfo =
      (streamCore rs query bv session qs h info).newInfo ∧
    (streamExecuteMultiOneShard rs query bv session autocommit info acc).err =
      (streamCore rs query bv session qs h info).err := by
  unfold streamExecuteMultiOneShard
  rw [if_neg hac, hqs]
  exact ⟨rfl, rfl, rfl, rfl⟩

/-- Helper: the execute dispatch either leaves the session alone or resets
the pinned shard session, and in the latter case it made two calls. -/
theorem executeCore_session_cases (rs : ResolvedShard) (q : BoundQuery)
    (session : SafeSession) (qs : QueryService) (h : QSHandle)
    (info : ShardActionInfo) :
    (executeCore rs q session qs h info).session = session ∨
    ((executeCore rs q session qs h info).session =
        session.resetShard info.tabletAlias ∧
      (executeCore rs q session qs h info).calls.length = 2) := by
  unfold executeCore
  cases ha : info.actionNeeded
  case nothing =>
    cases he : (qs.execute rs.target q.sql q.bindVars info.transactionID info.reservedID).err
    · left; simp [he, mkCore]
    case some e =>
      cases hrc : retryCond info e rs.target
      · left
        simp [he, checkAndResetShardSession_of_cond_false info e session rs.target hrc, mkCore]
      · cases hq : requireNewQS e (some rs.target) <;>
          · right
            simp [he, checkAndResetShardSession_of_cond_true info e session rs.target hrc, hq, mkCore]
  case reserveBegin => left; simp [mkCore]
  case reserve => left; simp [mkCore]
  case begin =>
    cases he : (qs.beginExecute rs.target session.savePoints q.sql q.bindVars info.reservedID).err
    · left; simp [he, mkCore]
    case some e =>
      cases hrc : retryCond info e rs.target
      · left
        simp [he, checkAndResetShardSession_of_cond_false info e session rs.target hrc, mkCore]
      · cases hq : requireNewQS e (some rs.target) <;>
          · right
            simp [he, checkAndResetShardSession_of_cond_true info e session rs.target hrc, hq, mkCore]

/-- Helper: the stream dispatch either leaves the session alone or resets
the pinned shard session, and in the latter case it made two calls. -/
theorem streamCore_session_cases (rs : ResolvedShard) (query : String)
    (bv : List (String × String)) (session : SafeSession) (qs : QueryService)
    (h : QSHandle) (info : ShardActionInfo) :
    (streamCore rs query bv session qs h info).session = session ∨
    ((streamCore rs query bv session qs h info).session =
        session.resetShard info.tabletAlias ∧
      (streamCore rs query bv session qs h info).calls.length = 2) := by
  unfold streamCore
  cases ha : info.actionNeeded
  case nothing =>
    cases he : (qs.streamExecute rs.target query bv info.transactionID info.reservedID).err
    · left; simp [he, mkCore]
    case some e =>
      cases hrc : retryCond info e rs.target
      · left
        simp [he, checkAndResetShardSession_of_cond_false info e session rs.target hrc, mkCore]
      · cases hq : requireNewQS e (some rs.target) <;>
          · right
            simp [he, checkAndResetShardSession_of_cond_true info e session rs.target hrc, hq, mkCore]
  case reserveBegin => left; simp [mkCore]
  case reserve => left; simp [mkCore]
  case begin =>
    cases he : (qs.beginStreamExecute rs.target session.savePoints query bv info.reservedID).err
    · left; simp [he, mkCore]
    case some e =>
      cases hrc : retryCond info e rs.target
      · left
        simp [he, checkAndResetShardSession_of_cond_false info e session rs.target hrc, mkCore]
      · cases hq : requireNewQS e (some rs.target) <;>
          · right
            simp [he, checkAndResetShardSession_of_cond_true info e session rs.target hrc, hq, mkCore]

/-- Helper: the session coming out of the `ExecuteMultiShard` closure is
the incoming one, possibly with the pinned shard session reset. -/
theorem executeOneShard_session_cases (maxRows : Nat) (ignore : Bool)
    (rs : ResolvedShard) (q : BoundQuery) (session : SafeSession)
    (autocommit : Bool) (info : ShardActionInfo) (acc : Result) :
    (executeMultiShardOneShard maxRows ignore rs q session autocommit info acc).session = session ∨
    (executeMultiShardOneShard maxRows ignore rs q session autocommit info acc).session =
      session.resetShard info.tabletAlias := by
  unfold executeMultiShardOneShard
  by_cases hac : autocommit = true ∧ info.transactionID ≠ 0
  · rw [if_pos hac]; left; rfl
  · rw [if_neg hac]
    cases hg : getQueryService rs info with
    | error e => left; rfl
    | ok p =>
      obtain ⟨h, qs⟩ := p
      cases he : (executeCore rs q session qs h info).err <;>
        simp only [he] <;>
          rcases executeCore_session_cases rs q session qs h info with hs | ⟨hs, _⟩ <;>
            simp [hs]

/-- Helper: the session coming out of the `StreamExecuteMulti` closure is
the incoming one, possibly with the pinned shard session reset. -/
theorem streamOneShard_session_cases (rs : ResolvedShard) (query : String)
    (bv : List (String × String)) (session : SafeSession) (autocommit : Bool)
    (info : ShardActionInfo) (acc : Result) :
    (streamExecuteMultiOneShard rs query bv session autocommit info acc).session = session ∨
    (streamExecuteMultiOneShard rs query bv session autocommit info acc).session =
      session.resetShard info.tabletAlias := by
  unfold streamExecuteMultiOneShard
  by_cases hac : autocommit = true ∧ info.transactionID ≠ 0
  · rw [if_pos hac]; left; rfl
  · rw [if_neg hac]
    cases hg : getQueryService rs info with
    | error e => left; rfl
    | ok p =>
      obtain ⟨h, qs⟩ := p
      rcases streamCore_session_cases rs query bv session qs h info with hs | ⟨hs, _⟩ <;>
        simp [hs]

/-- A shard action that never touches the rollback flag of the session it
is handed (both scatter closures satisfy this: their only session effect is
`ResetShard`). -/
def preservesRollbackFlag (action : ShardAction) : Prop :=
  ∀ rs i s info acc,
    ((action rs i s info acc).session).mustRollbackFlag = s.mustRollbackFlag

/-- Helper: the `ExecuteMultiShard` shard action never touches the rollback
flag. -/
theorem execAction_preservesRollbackFlag (maxRows : Nat) (ignore : Bool)
    (queries : List BoundQuery) (autocommit : Bool) :
    preservesRollbackFlag (execAction maxRows ignore queries autocommit) := by
  intro rs i s info acc
  unfold execAction
  rcases executeOneShard_session_cases maxRows ignore rs
      (queries.getD i { sql := "", bindVars := [] }) s autocommit info acc with hs | hs <;>
    rw [hs] <;> rfl

/-- Helper: the `StreamExecuteMulti` shard action never touches the
rollback flag. -/
theorem streamAction_preservesRollbackFlag (query : String)
    (bindVars : List (List (String × String))) (autocommit : Bool) :
    preservesRollbackFlag (streamAction query bindVars autocommit) := by
  intro rs i s info acc
  unfold streamAction
  rcases streamOneShard_session_cases rs query (bindVars.getD i []) s
      autocommit info acc with hs | hs <;>
    rw [hs] <;> rfl

/-- C2: in the `nothing` and `begin` branches of the shard closures of
`ExecuteMultiShard` and `StreamExecuteMulti`, a failed tablet call is
re-issued exactly once — with the action upgraded (`nothing` to `reserve`,
`begin` to `reserveBegin`, through the gateway when a new tablet is
required) and `ResetShard` applied to the session first — if and only if
the incoming shard action info has a non-zero reserved id and a zero
transaction id and the error is classified as connection-closed or as
requiring a new tablet (`retryCond`); the `reserve` and `reserveBegin`
branches always make exactly one call and never touch the session. -/
theorem scatter_transparent_retry (maxRows : Nat) (ignore : Bool)
    (rs : ResolvedShard) (q : BoundQuery) (query : String)
    (bv : List (String × String)) (session : SafeSession) (autocommit : Bool)
    (info : ShardActionInfo) (acc : Result) (h : QSHandle) (qs : QueryService)
    (e : VtError)
    (hac : ¬(autocommit = true ∧ info.transactionID ≠ 0))
    (hqs : getQueryService rs info = Except.ok (h, qs)) :
    (info.actionNeeded = ActionNeeded.nothing →
      (qs.execute rs.target q.sql q.bindVars info.transactionID info.reservedID).err = some e →
      (retryCond info e rs.target = true →
        (executeMultiShardOneShard maxRows ignore rs q session autocommit info acc).calls =
          [{ handle := h, action := ActionNeeded.nothing },
           { handle := if requireNewQS e (some rs.target) then QSHandle.gw else h,
             action := ActionNeeded.reserve }] ∧
        (executeMultiShardOneShard maxRows ignore rs q session autocommit info acc).session =
          session.resetShard info.tabletAlias) ∧
      (retryCond info e rs.target = false →
        (executeMultiShardOneShard maxRows ignore rs q session autocommit info acc).calls =
          [{ handle := h, action := ActionNeeded.nothing }] ∧
        (executeMultiShardOneShard maxRows ignore rs q session autocommit info acc).session =
          session)) ∧
    (info.actionNeeded = ActionNeeded.begin →
      (qs.beginExecute rs.target session.savePoints q.sql q.bindVars info.reservedID).err = some e →
      (retryCond info e rs.target = true →
        (executeMultiShardOneShard maxRows ignore rs q session autocommit info acc).calls =
          [{ handle := h, action := ActionNeeded.begin },
           { handle := if requireNewQS e (some rs.target) then QSHandle.gw else h,
             action := ActionNeeded.reserveBegin }] ∧
        (executeMultiShardOneShard maxRows ignore rs q session autocommit info acc).session =
          session.resetShard info.tabletAlias) ∧
      (retryCond info e rs.target = false →
        (executeMultiShardOneShard maxRows ignore rs q session autocommit info acc).calls =
          [{ handle := h, action := ActionNeeded.begin }] ∧
        (executeMultiShardOneShard maxRows ignore rs q session autocommit info acc).session =
          session)) ∧
    (info.actionNeeded = ActionNeeded.reserve →
      (executeMultiShardOneShard maxRows ignore rs q session autocommit info acc).calls =
        [{ handle := h, action := ActionNeeded.reserve }] ∧
      (executeMultiShardOneShard maxRows ignore rs q session autocommit info acc).session =
        session) ∧
    (info.actionNeeded = ActionNeeded.reserveBegin →
      (executeMultiShardOneShard maxRows ignore rs q session autocommit info acc).calls =
        [{ handle := h, action := ActionNeeded.reserveBegin }] ∧
      (executeMultiShardOneShard maxRows ignore rs q session autocommit info acc).session =
        session) ∧
    (info.actionNeeded = ActionNeeded.nothing →
      (qs.streamExecute rs.target query bv info.transactionID info.reservedID).err = some e →
      (retryCond info e rs.target = true →
        (streamExecuteMultiOneShard rs query bv session autocommit info acc).calls =
          [{ handle := h, action := ActionNeeded.nothing },
           { handle := if requireNewQS e (some rs.target) then QSHandle.gw else h,
             action := ActionNeeded.reserve }] ∧
        (streamExecuteMultiOneShard rs query bv session autocommit info acc).session =
          session.resetShard info.tabletAlias) ∧
      (retryCond info e rs.target = false →
        (streamExecuteMultiOneShard rs query bv session autocommit info acc).calls =
          [{ handle := h, action := ActionNeeded.nothing }] ∧
        (streamExecuteMultiOneShard rs query bv session autocommit info acc).session =
          session)) ∧
    (info.actionNeeded = ActionNeeded.begin →
      (qs.beginStreamExecute rs.target session.savePoints query bv info.reservedID).err = some e →
      (retryCond info e rs.target = true →
        (streamExecuteMultiOneShard rs query bv session autocommit info acc).calls =
          [{ handle := h, action := ActionNeeded.begin },
           { handle := if requireNewQS e (some rs.target) then QSHandle.gw else h,
             action := ActionNeeded.reserveBegin }] ∧
        (streamExecuteMultiOneShard rs query bv session autocommit info acc).session =
          session.resetShard info.tabletAlias) ∧
      (retryCond info e rs.target = false →
        (streamExecuteMultiOneShard rs query bv session autocommit info acc).calls =
          [{ handle := h, action := ActionNeeded.begin }] ∧
        (streamExecuteMultiOneShard rs query bv session autocommit info acc).session =
          session)) ∧
    (info.actionNeeded = ActionNeeded.reserve →
      (streamExecuteMultiOneShard rs query bv session autocommit info acc).calls =
        [{ handle := h, action := ActionNeeded.reserve }] ∧
      (streamExecuteMultiOneShard rs query bv session autocommit info acc).session =
        session) ∧
    (info.actionNeeded = ActionNeeded.reserveBegin →
      (streamExecuteMultiOneShard rs query bv session autocommit info acc).calls =
        [{ handle := h, action := ActionNeeded.reserveBegin }] ∧
      (streamExecuteMultiOneShard rs query bv session autocommit info acc).session =
        session) := by
  obtain ⟨hcE, hsE, _, _⟩ :=
    executeOneShard_core maxRows ignore rs q session autocommit info acc h qs hac hqs
  obtain ⟨hcS, hsS, _, _⟩ :=
    streamOneShard_core rs query bv session autocommit info acc h qs hac hqs
  refine ⟨?_, ?_, ?_, ?_, ?_, ?_, ?_, ?_⟩
  · intro ha he
    constructor
    · intro hr
      rw [hcE, hsE]
      exact executeCore_nothing_retry rs q session qs h info e ha he hr
    · intro hr
      rw [hcE, hsE]
      exact executeCore_nothing_noretry rs q session qs h info e ha he hr
  · intro ha he
    constructor
    · intro hr
      rw [hcE, hsE]
      exact executeCore_begin_retry rs q session qs h info e ha he hr
    · intro hr
      rw [hcE, hsE]
      exact executeCore_begin_noretry rs q session qs h info e ha he hr
  · intro ha
    rw [hcE, hsE]
    exact executeCore_reserve rs q session qs h info ha
  · intro ha
    rw [hcE, hsE]
    exact executeCore_reserveBegin rs q session qs h info ha
  · intro ha he
    constructor
    · intro hr
      rw [hcS, hsS]
      exact streamCore_nothing_retry rs query bv session qs h info e ha he hr
    · intro hr
      rw [hcS, hsS]
      exact streamCore_nothing_noretry rs query bv session qs h info e ha he hr
  · intro ha he
    constructor
    · intro hr
      rw [hcS, hsS]
      exact streamCore_begin_retry rs query bv session qs h info e ha he hr
    · intro hr
      rw [hcS, hsS]
      exact streamCore_begin_noretry rs query bv session qs h info e ha he hr
  · intro ha
    rw [hcS, hsS]
    exact streamCore_reserve rs query bv session qs h info ha
  · intro ha
    rw [hcS, hsS]
    exact streamCore_reserveBegin rs query bv session qs h info ha

/-- C4: when the session requires reserved connections and its shard
session for the target records a non-zero reserved id with a tablet alias,
a shard closure resolves its query service through `QueryServiceByAlias`
with exactly that alias (until the shard session is reset, after which
`Find` no longer returns it). -/
theorem reserved_connection_routes_by_alias (rs : ResolvedShard)
    (session : SafeSession) (autocommit : Bool) (a : TabletAlias)
    (tx rid : Int)
    (hres : session.inReservedConn = true)
    (hfind : session.find rs.target.keyspace rs.target.shard rs.target.tabletType =
      (tx, rid, some a))
    (hrid : rid ≠ 0) :
    getQueryService rs (actionInfo rs.target session autocommit) =
      (rs.gateway.queryServiceByAlias a rs.target).map
        (fun q => (QSHandle.byAlias a, q)) := by
  have halias : (actionInfo rs.target session autocommit).tabletAlias = some a := by
    unfold actionInfo
    rw [hres]
    simp [hfind]
  unfold getQueryService
  rw [halias]

/-- Helper: outside the autocommit violation the `ExecuteMultiShard`
closure never reports a rejection. -/
theorem executeOneShard_not_rejected (maxRows : Nat) (ignore : Bool)
    (rs : ResolvedShard) (q : BoundQuery) (session : SafeSession)
    (autocommit : Bool) (info : ShardActionInfo) (acc : Result)
    (hac : ¬(autocommit = true ∧ info.transactionID ≠ 0)) :
    (executeMultiShardOneShard maxRows ignore rs q session autocommit info acc).autocommitRejected = false := by
  unfold executeMultiShardOneShard
  rw [if_neg hac]
  cases hg : getQueryService rs info with
  | error e => rfl
  | ok p =>
      obtain ⟨h, qs⟩ := p
      cases he : (executeCore rs q session qs h info).err <;> simp [he]

/-- Helper: outside the autocommit violation the `StreamExecuteMulti`
closure never reports a rejection. -/
theorem streamOneShard_not_rejected (rs : ResolvedShard) (query : String)
    (bv : List (String × String)) (session : SafeSession) (autocommit : Bool)
    (info : ShardActionInfo) (acc : Result)
    (hac : ¬(autocommit = true ∧ info.transactionID ≠ 0)) :
    (streamExecuteMultiOneShard rs query bv session autocommit info acc).autocommitRejected = false := by
  unfold streamExecuteMultiOneShard
  rw [if_neg hac]
  cases hg : getQueryService rs info with
  | error e => rfl
  | ok p => obtain ⟨h, qs⟩ := p; rfl

/-- C7: in both scatter closures, under autocommit a non-zero incoming
transaction id — and nothing else — triggers the precondition rejection:
the closure returns the `FAILED_PRECONDITION` error without making any
tablet call and without an updated shard info; with a zero incoming
transaction id the rejection never happens. -/
theorem autocommit_zero_transaction_precondition (maxRows : Nat)
    (ignore : Bool) (rs : ResolvedShard) (q : BoundQuery) (query : String)
    (bv : List (String × String)) (session : SafeSession) (autocommit : Bool)
    (info : ShardActionInfo) (acc : Result) :
    ((executeMultiShardOneShard maxRows ignore rs q session autocommit info acc).autocommitRejected = true ↔
      (autocommit = true ∧ info.transactionID ≠ 0)) ∧
    ((autocommit = true ∧ info.transactionID ≠ 0) →
      (executeMultiShardOneShard maxRows ignore rs q session autocommit info acc).err =
        some (autocommitTransactionError info.transactionID) ∧
      (executeMultiShardOneShard maxRows ignore rs q session autocommit info acc).calls = [] ∧
      (executeMultiShardOneShard maxRows ignore rs q session autocommit info acc).newInfo = none) ∧
    ((streamExecuteMultiOneShard rs query bv session autocommit info acc).autocommitRejected = true ↔
      (autocommit = true ∧ info.transactionID ≠ 0)) ∧
    ((autocommit = true ∧ info.transactionID ≠ 0) →
      (streamExecuteMultiOneShard rs query bv session autocommit info acc).err =
        some (autocommitTransactionError info.transactionID) ∧
      (streamExecuteMultiOneShard rs query bv session autocommit info acc).calls = [] ∧
      (streamExecuteMultiOneShard rs query bv session autocommit info acc).newInfo = none) ∧
    (autocommitTransactionError info.transactionID).code = ErrCode.FAILED_PRECONDITION := by
  refine ⟨⟨?_, ?_⟩, ?_, ⟨?_, ?_⟩, ?_, rfl⟩
  · intro hrej
    by_contra hac
    rw [executeOneShard_not_rejected maxRows ignore rs q session autocommit info acc hac] at hrej
    exact Bool.false_ne_true hrej
  · intro hac
    unfold executeMultiShardOneShard
    rw [if_pos hac]
  · intro hac
    unfold executeMultiShardOneShard
    rw [if_pos hac]
    exact ⟨rfl, rfl, rfl⟩
  · intro hrej
    by_contra hac
    rw [streamOneShard_not_rejected rs query bv session autocommit info acc hac] at hrej
    exact Bool.false_ne_true hrej
  · intro hac
    unfold streamExecuteMultiOneShard
    rw [if_pos hac]
  · intro hac
    unfold streamExecuteMultiOneShard
    rw [if_pos hac]
    exact ⟨rfl, rfl, rfl⟩

/-- C8: in the streaming callback funnel, a message delivered to the
callback before any fields were sent carries a non-empty field schema; once
fields were sent, a message with no rows is dropped without invoking the
callback (and the flag stays set); a message with an empty field schema
before any fields were sent yields the internal "received rows before
fields" error and the callback is not invoked. -/
theorem streaming_funnel_fields_first (fieldSent : Bool) (qr : Result)
    (callback : Result → Option VtError) :
    ((processOneStreamingResult false qr callback).invoked = true →
      qr.fields.length ≠ 0) ∧
    (fieldSent = true → qr.rows = [] →
      (processOneStreamingResult fieldSent qr callback).invoked = false ∧
      (processOneStreamingResult fieldSent qr callback).ret = none ∧
      (processOneStreamingResult fieldSent qr callback).fieldSent = true) ∧
    (qr.fields = [] →
      (processOneStreamingResult false qr callback).invoked = false ∧
      (processOneStreamingResult false qr callback).ret = some rowsBeforeFieldsError) ∧
    rowsBeforeFieldsError.code = ErrCode.INTERNAL := by
  refine ⟨?_, ?_, ?_, rfl⟩
  · intro hinv
    intro hf
    unfold processOneStreamingResult at hinv
    simp [hf] at hinv
  · intro hfs hrows
    subst hfs
    unfold processOneStreamingResult
    simp [hrows]
  · intro hf
    unfold processOneStreamingResult
    simp [hf]

/-- C9: one iteration of the per-shard `MessageStream` loop: a non-transient
error cancels the shared context and is surfaced; a transient end (nil, EOF
or `UNAVAILABLE`) with the context already done returns without error and
without cancelling; a transient end past the grace period (measured from
the first unreset failure recorded in the tracker) cancels the shared
context and surfaces the `DEADLINE_EXCEEDED` error; a transient end inside
the grace period retries after a fifth of the grace period, or returns
without error if the context is cancelled during the wait. -/
theorem messageStream_grace_period_retry (gracePeriod now : Nat)
    (target : Target) (se : StreamEnd) (ctxDone ctxDoneDuringWait : Bool)
    (tt : TimeTracker) :
    (∀ e, se = StreamEnd.errv e → e.code ≠ ErrCode.UNAVAILABLE →
      messageStreamIteration gracePeriod now target se ctxDone ctxDoneDuringWait tt =
        MsgLoopStep.ret true (some e)) ∧
    (transientEnd se = true → ctxDone = true →
      messageStreamIteration gracePeriod now target se ctxDone ctxDoneDuringWait tt =
        MsgLoopStep.ret false none) ∧
    (transientEnd se = true → ctxDone = false →
      gracePeriod ≤ now - (tt.record target now).1 →
      messageStreamIteration gracePeriod now target se ctxDone ctxDoneDuringWait tt =
        MsgLoopStep.ret true (some messageStreamDeadlineError) ∧
      messageStreamDeadlineError.code = ErrCode.DEADLINE_EXCEEDED) ∧
    (transientEnd se = true → ctxDone = false →
      now - (tt.record target now).1 < gracePeriod → ctxDoneDuringWait = true →
      messageStreamIteration gracePeriod now target se ctxDone ctxDoneDuringWait tt =
        MsgLoopStep.ret false none) ∧
    (transientEnd se = true → ctxDone = false →
      now - (tt.record target now).1 < gracePeriod → ctxDoneDuringWait = false →
      messageStreamIteration gracePeriod now target se ctxDone ctxDoneDuringWait tt =
        MsgLoopStep.retry (gracePeriod / 5) (tt.record target now).2) := by
  refine ⟨?_, ?_, ?_, ?_, ?_⟩
  · intro e hse hcode
    subst hse
    unfold messageStreamIteration
    simp [hcode]
  · intro htr hdone
    subst hdone
    cases se with
    | ok => unfold messageStreamIteration messageStreamIteration.messageStreamRetryPath; simp
    | eof => unfold messageStreamIteration messageStreamIteration.messageStreamRetryPath; simp
    | errv e =>
        have hcode : e.code = ErrCode.UNAVAILABLE := by
          unfold transientEnd at htr
          simpa using htr
        unfold messageStreamIteration messageStreamIteration.messageStreamRetryPath
        simp [hcode]
  · intro htr hdone hgrace
    refine ⟨?_, rfl⟩
    cases se with
    | ok =>
        unfold messageStreamIteration messageStreamIteration.messageStreamRetryPath
        simp [hdone, hgrace]
    | eof =>
        unfold messageStreamIteration messageStreamIteration.messageStreamRetryPath
        simp [hdone, hgrace]
    | errv e =>
        have hcode : e.code = ErrCode.UNAVAILABLE := by
          unfold transientEnd at htr
          simpa using htr
        unfold messageStreamIteration messageStreamIteration.messageStreamRetryPath
        simp [hcode, hdone, hgrace]
  · intro htr hdone hgrace hwait
    have hgrace' : ¬ gracePeriod ≤ now - (tt.record target now).1 :=
      Nat.not_le_of_lt hgrace
    cases se with
    | ok =>
        unfold messageStreamIteration messageStreamIteration.messageStreamRetryPath
        simp [hdone, hgrace', hwait]
    | eof =>
        unfold messageStreamIteration messageStreamIteration.messageStreamRetryPath
        simp [hdone, hgrace', hwait]
    | errv e =>
        have hcode : e.code = ErrCode.UNAVAILABLE := by
          unfold transientEnd at htr
          simpa using htr
        unfold messageStreamIteration messageStreamIteration.messageStreamRetryPath
        simp [hcode, hdone, hgrace', hwait]
  · intro htr hdone hgrace hwait
    have hgrace' : ¬ gracePeriod ≤ now - (tt.record target now).1 :=
      Nat.not_le_of_lt hgrace
    cases se with
    | ok =>
        unfold messageStreamIteration messageStreamIteration.messageStreamRetryPath
        simp [hdone, hgrace', hwait]
    | eof =>
        unfold messageStreamIteration messageStreamIteration.messageStreamRetryPath
        simp [hdone, hgrace', hwait]
    | errv e =>
        have hcode : e.code = ErrCode.UNAVAILABLE := by
          unfold transientEnd at htr
          simpa using htr
        unfold messageStreamIteration messageStreamIteration.messageStreamRetryPath
        simp [hcode, hdone, hgrace', hwait]

/-- Helper: a successful upsert never touches the rollback flag. -/
theorem appendOrUpdate_flag (s : SafeSession) (ss : ShardSession)
    (mode : TxMode) (s2 : SafeSession)
    (h : s.appendOrUpdate ss mode = Except.ok s2) :
    s2.mustRollbackFlag = s.mustRollbackFlag := by
  unfold SafeSession.appendOrUpdate at h
  split at h
  · cases h; rfl
  · split at h
    · cases h
    · cases h; rfl

/-- Helper: `endAction` never clears the rollback flag. -/
theorem endActionSession_flag_mono (r : Option VtError) (s : SafeSession)
    (h : s.mustRollbackFlag = true) :
    (endActionSession r s).mustRollbackFlag = true := by
  cases r with
  | none => exact h
  | some e =>
      simp only [endActionSession]
      split
      · rfl
      · exact h

/-- Helper: `endAction` sets the rollback flag on `RESOURCE_EXHAUSTED` and
`ABORTED` errors. -/
theorem endActionSession_sets (e : VtError) (s : SafeSession)
    (hcode : e.code = ErrCode.RESOURCE_EXHAUSTED ∨ e.code = ErrCode.ABORTED) :
    (endActionSession (some e) s).mustRollbackFlag = true := by
  simp only [endActionSession]
  rw [if_pos hcode]
  rfl

/-- Helper: one `multiGoTransaction` shard step appends exactly one error
slot, produces its session by running `endAction` on that very error over a
session whose rollback flag the closure did not change, and never invokes
the rollback itself. -/
theorem multiGoOneShard_shape (mode : TxMode) (action : ShardAction)
    (rs : ResolvedShard) (i : Nat) (autocommit : Bool) (st : MultiGoState)
    (hflag : ((action rs i st.session (actionInfo rs.target st.session autocommit) st.acc).session).mustRollbackFlag =
      st.session.mustRollbackFlag) :
    ∃ r s2,
      (multiGoOneShard mode action rs i autocommit st).errs = st.errs ++ [r] ∧
      (multiGoOneShard mode action rs i autocommit st).session = endActionSession r s2 ∧
      s2.mustRollbackFlag = st.session.mustRollbackFlag ∧
      (multiGoOneShard mode action rs i autocommit st).rollbackCalls = st.rollbackCalls := by
  cases hn : (action rs i st.session (actionInfo rs.target st.session autocommit) st.acc).newInfo with
  | none =>
      refine ⟨(action rs i st.session (actionInfo rs.target st.session autocommit) st.acc).err,
        (action rs i st.session (actionInfo rs.target st.session autocommit) st.acc).session,
        ?_, ?_, hflag, ?_⟩ <;>
        simp [multiGoOneShard, hn]
  | some u =>
      by_cases hcnd : u.actionNeeded ≠ ActionNeeded.nothing ∧
          (u.transactionID ≠ 0 ∨ u.reservedID ≠ 0)
      · cases hup : ((action rs i st.session (actionInfo rs.target st.session autocommit) st.acc).session).appendOrUpdate
            { target := rs.target, transactionId := u.transactionID,
              reservedId := u.reservedID, tabletAlias := u.tabletAlias } mode with
        | ok s' =>
            refine ⟨(action rs i st.session (actionInfo rs.target st.session autocommit) st.acc).err,
              s', ?_, ?_, ?_, ?_⟩
            · simp [multiGoOneShard, hn, hcnd, hup]
            · simp [multiGoOneShard, hn, hcnd, hup]
            · rw [appendOrUpdate_flag _ _ _ _ hup]
              exact hflag
            · simp [multiGoOneShard, hn, hcnd, hup]
        | error ae =>
            refine ⟨some ae,
              (action rs i st.session (actionInfo rs.target st.session autocommit) st.acc).session,
              ?_, ?_, hflag, ?_⟩ <;>
              simp [multiGoOneShard, hn, hcnd, hup]
      · refine ⟨(action rs i st.session (actionInfo rs.target st.session autocommit) st.acc).err,
          (action rs i st.session (actionInfo rs.target st.session autocommit) st.acc).session,
          ?_, ?_, hflag, ?_⟩ <;>
          simp [multiGoOneShard, hn, hcnd]

/-- Helper: through the whole shard loop, every recorded error with code
`RESOURCE_EXHAUSTED` or `ABORTED` forces the rollback flag, and the loop
itself never invokes the rollback. -/
theorem multiGoLoop_invariant (mode : TxMode) (action : ShardAction)
    (autocommit : Bool) (hp : preservesRollbackFlag action) :
    ∀ (rss : List ResolvedShard) (i : Nat) (st : MultiGoState),
      (∀ e, some e ∈ st.errs →
        (e.code = ErrCode.RESOURCE_EXHAUSTED ∨ e.code = ErrCode.ABORTED) →
        st.session.mustRollbackFlag = true) →
      ((∀ e, some e ∈ (multiGoLoop mode action autocommit rss i st).errs →
          (e.code = ErrCode.RESOURCE_EXHAUSTED ∨ e.code = ErrCode.ABORTED) →
          (multiGoLoop mode action autocommit rss i st).session.mustRollbackFlag = true) ∧
        (multiGoLoop mode action autocommit rss i st).rollbackCalls = st.rollbackCalls) := by
  intro rss
  induction rss with
  | nil => intro i st hst; exact ⟨hst, rfl⟩
  | cons rs rest ih =>
      intro i st hst
      obtain ⟨r, s2, herr, hsess, hflag, hrb⟩ :=
        multiGoOneShard_shape mode action rs i autocommit st
          (hp rs i st.session (actionInfo rs.target st.session autocommit) st.acc)
      have hst' : ∀ e, some e ∈ (multiGoOneShard mode action rs i autocommit st).errs →
          (e.code = ErrCode.RESOURCE_EXHAUSTED ∨ e.code = ErrCode.ABORTED) →
          (multiGoOneShard mode action rs i autocommit st).session.mustRollbackFlag = true := by
        intro e hmem hcode
        rw [herr] at hmem
        rw [hsess]
        rcases List.mem_append.mp hmem with hold | hnew
        · exact endActionSession_flag_mono r s2 (by rw [hflag]; exact hst e hold hcode)
        · have hr : some e = r := by simpa using hnew
          subst hr
          exact endActionSession_sets e s2 hcode
      have hrest := ih (i + 1) (multiGoOneShard mode action rs i autocommit st) hst'
      simp only [multiGoLoop]
      exact ⟨hrest.1, by rw [hrest.2, hrb]⟩

/-- C3: in `multiGoTransaction` (for any shard action that does not itself
touch the rollback flag, which both scatter closures satisfy), every shard
error recorded with code `RESOURCE_EXHAUSTED` or `ABORTED` leaves the call
with `MustRollback` true; and when shards ran at all, the transaction
connection's rollback is invoked exactly once when `MustRollback` holds at
the end, and never otherwise. -/
theorem rollback_on_exhausted_or_aborted (mode : TxMode)
    (action : ShardAction) (rss : List ResolvedShard) (session : SafeSession)
    (autocommit : Bool) (hp : preservesRollbackFlag action) :
    (∀ e, some e ∈ (multiGoTransaction mode action rss session autocommit).errs →
      (e.code = ErrCode.RESOURCE_EXHAUSTED ∨ e.code = ErrCode.ABORTED) →
      (multiGoTransaction mode action rss session autocommit).session.mustRollback = true) ∧
    (rss ≠ [] →
      (multiGoTransaction mode action rss session autocommit).rollbackCalls =
        if (multiGoTransaction mode action rss session autocommit).session.mustRollback
        then 1 else 0) := by
  unfold multiGoTransaction
  by_cases hlen : rss.length = 0
  · rw [if_pos hlen]
    constructor
    · intro e hmem
      simp at hmem
    · intro hne
      exact absurd (List.length_eq_zero.mp hlen) hne
  · rw [if_neg hlen]
    obtain ⟨hP, hrb⟩ := multiGoLoop_invariant mode action autocommit hp rss 0
      { session := session, acc := emptyResult, errs := [], rollbackCalls := 0,
        appendCalls := 0 }
      (by intro e hmem; simp at hmem)
    by_cases hmr : (multiGoLoop mode action autocommit rss 0
        { session := session, acc := emptyResult, errs := [], rollbackCalls := 0,
          appendCalls := 0 }).session.mustRollback = true
    · rw [if_pos hmr]
      constructor
      · intro e hmem hcode
        exact hP e hmem hcode
      · intro _
        rw [if_pos hmr]
        rw [hrb]
    · rw [if_neg hmr]
      constructor
      · intro e hmem hcode
        exact hP e hmem hcode
      · intro _
        rw [if_neg hmr]
        rw [hrb]

/-- Helper: `endAction` never touches the shard-session list. -/
theorem endActionSession_shardSessions (r : Option VtError) (s : SafeSession) :
    (endActionSession r s).shardSessions = s.shardSessions := by
  cases r with
  | none => rfl
  | some e =>
      simp only [endActionSession]
      split <;> rfl

/-- C10: `multiGoTransaction` upserts a shard session exactly when the
closure returned an updated info whose action is not `nothing` and whose
transaction id or reserved id is non-zero (`appendCond`); when it does not,
the session passes through the step with only `endAction` applied; the
update is `nil` exactly when the tablet call returned the transaction id
and reserved id it was given; and in particular an `ExecuteMultiShard`
closure that made a single tablet call and produced a `nil` update leaves
the shard-session list unchanged. -/
theorem session_upsert_gating (mode : TxMode) (action : ShardAction)
    (rs : ResolvedShard) (i : Nat) (autocommit : Bool) (st : MultiGoState)
    (maxRows : Nat) (ignore : Bool) (queries : List BoundQuery) :
    ((multiGoOneShard mode action rs i autocommit st).appendCalls =
      st.appendCalls +
        (if appendCond ((action rs i st.session (actionInfo rs.target st.session autocommit) st.acc).newInfo) = true
         then 1 else 0)) ∧
    (appendCond ((action rs i st.session (actionInfo rs.target st.session autocommit) st.acc).newInfo) = false →
      (multiGoOneShard mode action rs i autocommit st).session =
        endActionSession
          (action rs i st.session (actionInfo rs.target st.session autocommit) st.acc).err
          (action rs i st.session (actionInfo rs.target st.session autocommit) st.acc).session) ∧
    (∀ (sai : ShardActionInfo) (tx rid : Int) (al : Option TabletAlias),
      sai.updateTransactionAndReservedID tx rid al = none ↔
        (tx = sai.transactionID ∧ rid = sai.reservedID)) ∧
    ((execAction maxRows ignore queries autocommit rs i st.session
        (actionInfo rs.target st.session autocommit) st.acc).calls.length = 1 →
      (execAction maxRows ignore queries autocommit rs i st.session
        (actionInfo rs.target st.session autocommit) st.acc).newInfo = none →
      (multiGoOneShard mode (execAction maxRows ignore queries autocommit) rs i autocommit st).session.shardSessions =
        st.session.shardSessions) := by
  refine ⟨?_, ?_, ?_, ?_⟩
  · cases hn : (action rs i st.session (actionInfo rs.target st.session autocommit) st.acc).newInfo with
    | none => simp [multiGoOneShard, hn, appendCond]
    | some u =>
        by_cases hcnd : u.actionNeeded ≠ ActionNeeded.nothing ∧
            (u.transactionID ≠ 0 ∨ u.reservedID ≠ 0)
        · cases hup : ((action rs i st.session (actionInfo rs.target st.session autocommit) st.acc).session).appendOrUpdate
              { target := rs.target, transactionId := u.transactionID,
                reservedId := u.reservedID, tabletAlias := u.tabletAlias } mode with
          | ok s' => simp [multiGoOneShard, hn, hcnd, hup, appendCond]
          | error ae => simp [multiGoOneShard, hn, hcnd, hup, appendCond]
        · simp [multiGoOneShard, hn, hcnd, appendCond]
  · intro hfalse
    cases hn : (action rs i st.session (actionInfo rs.target st.session autocommit) st.acc).newInfo with
    | none => simp [multiGoOneShard, hn]
    | some u =>
        rw [hn] at hfalse
        simp only [appendCond] at hfalse
        have hcnd := of_decide_eq_false hfalse
        simp [multiGoOneShard, hn, hcnd]
  · intro sai tx rid al
    constructor
    · intro hnone
      unfold ShardActionInfo.updateTransactionAndReservedID at hnone
      split at hnone
      · next hb => simpa using hb
      · cases hnone
    · intro hb
      simp [ShardActionInfo.updateTransactionAndReservedID, hb.1, hb.2]
  · intro hc hn
    have hsess : (execAction maxRows ignore queries autocommit rs i st.session
        (actionInfo rs.target st.session autocommit) st.acc).session = st.session := by
      unfold execAction at hc ⊢
      by_cases hac : autocommit = true ∧
          (actionInfo rs.target st.session autocommit).transactionID ≠ 0
      · exfalso
        have hnil : (executeMultiShardOneShard maxRows ignore rs
            (queries.getD i { sql := "", bindVars := [] }) st.session autocommit
            (actionInfo rs.target st.session autocommit) st.acc).calls = [] := by
          unfold executeMultiShardOneShard
          rw [if_pos hac]
        rw [hnil] at hc
        simp at hc
      · cases hg : getQueryService rs (actionInfo rs.target st.session autocommit) with
        | error e0 =>
            exfalso
            have hnil : (executeMultiShardOneShard maxRows ignore rs
                (queries.getD i { sql := "", bindVars := [] }) st.session autocommit
                (actionInfo rs.target st.session autocommit) st.acc).calls = [] := by
              unfold executeMultiShardOneShard
              rw [if_neg hac, hg]
            rw [hnil] at hc
            simp at hc
        | ok p =>
            obtain ⟨h0, qs0⟩ := p
            obtain ⟨hcalls, hsess0, _, _⟩ := executeOneShard_core maxRows ignore rs
              (queries.getD i { sql := "", bindVars := [] }) st.session autocommit
              (actionInfo rs.target st.session autocommit) st.acc h0 qs0 hac hg
            rcases executeCore_session_cases rs
                (queries.getD i { sql := "", bindVars := [] }) st.session qs0 h0
                (actionInfo rs.target st.session autocommit) with hS | ⟨hS, hlen⟩
            · rw [hsess0, hS]
            · exfalso
              rw [hcalls] at hc
              rw [hc] at hlen
              exact absurd hlen (by decide)
    have hstep : (multiGoOneShard mode (execAction maxRows ignore queries autocommit) rs i autocommit st).session =
        endActionSession
          (execAction maxRows ignore queries autocommit rs i st.session
            (actionInfo rs.target st.session autocommit) st.acc).err
          (execAction maxRows ignore queries autocommit rs i st.session
            (actionInfo rs.target st.session autocommit) st.acc).session := by
      simp [multiGoOneShard, hn]
    rw [hstep, endActionSession_shardSessions, hsess]

/-- C5 counterexample: `ExecuteMultiShard` called with mismatched shard and
query lists returns a `nil` result together with the single internal error,
so the result is withheld in favour of an error alone, contradicting the
claim that every call returns a populated (non-nil) result. -/
theorem executeMultiShard_nil_result_on_mismatch :
    (ExecuteMultiShard TxMode.multi 300000 [] [demoQuery] emptySession false false).qr = none ∧
    (ExecuteMultiShard TxMode.multi 300000 [] [demoQuery] emptySession false false).errs =
      [mismatchedQueriesError] := by
  constructor <;> rfl

/-- C5 (amended): apart from the two guard paths that return a `nil` result
— mismatched argument lengths, and the row cap exceeded without the caller
opting out — `ExecuteMultiShard` returns the accumulated (possibly empty)
result together with the recorded per-shard errors, so callers can consume
a partially-successful result. -/
theorem executeMultiShard_result_with_errors (mode : TxMode) (maxRows : Nat)
    (rss : List ResolvedShard) (queries : List BoundQuery)
    (session : SafeSession) (autocommit : Bool) (ignore : Bool)
    (hlen : rss.length = queries.length)
    (hcap : ignore = true ∨
      (multiGoTransaction mode (execAction maxRows ignore queries autocommit)
        rss session autocommit).acc.rows.length ≤ maxRows) :
    (ExecuteMultiShard mode maxRows rss queries session autocommit ignore).qr =
      some (multiGoTransaction mode (execAction maxRows ignore queries autocommit)
        rss session autocommit).acc ∧
    (ExecuteMultiShard mode maxRows rss queries session autocommit ignore).errs =
      getErrors (multiGoTransaction mode (execAction maxRows ignore queries autocommit)
        rss session autocommit).errs := by
  unfold ExecuteMultiShard
  rw [if_neg (not_not_intro hlen)]
  have hcond : (!ignore &&
      decide ((multiGoTransaction mode (execAction maxRows ignore queries autocommit)
        rss session autocommit).acc.rows.length > maxRows)) = false := by
    rcases hcap with h1 | h1
    · rw [h1]
      rfl
    · simp [Nat.not_lt.mpr h1]
  simp [hcond]

/-- C6 counterexample: with the row cap set to 1 and an accumulated result
that already holds exactly one row — the cap is reached — a further
successful shard result is still appended (the source guard appends while
the accumulated count is less than or equal to the cap), contradicting the
claim that rows stop being appended once the cap is reached. -/
theorem executeMultiShard_appends_at_cap :
    (executeMultiShardOneShard 1 false demoRS demoQuery emptySession false
      { actionNeeded := ActionNeeded.nothing, reservedID := 0,
        transactionID := 0, tabletAlias := none } demoResult).acc.rows.length = 2 := by
  rfl

/-- C6 (amended): per-shard rows stop being appended once the accumulated
row count exceeds (not merely reaches) the cap, unless the caller opted
out: a closure facing an accumulated count strictly above the cap appends
nothing, a successful closure within the cap (or with the opt-out) appends
its shard result; and if the accumulated count exceeds the cap and the
caller did not opt out, the call returns a `nil` result with the single
`RESOURCE_EXHAUSTED` row-cap error. -/
theorem row_cap_gating (maxRows : Nat) (ignore : Bool) (rs : ResolvedShard)
    (q : BoundQuery) (session : SafeSession) (autocommit : Bool)
    (info : ShardActionInfo) (acc : Result) (mode : TxMode)
    (rss : List ResolvedShard) (queries : List BoundQuery) :
    (ignore = false → acc.rows.length > maxRows →
      (executeMultiShardOneShard maxRows ignore rs q session autocommit info acc).acc = acc) ∧
    ((executeMultiShardOneShard maxRows ignore rs q session autocommit info acc).err = none →
      (ignore = true ∨ acc.rows.length ≤ maxRows) →
      ∃ inner, (executeMultiShardOneShard maxRows ignore rs q session autocommit info acc).acc =
        acc.appendResult inner) ∧
    (rss.length = queries.length →
      (multiGoTransaction mode (execAction maxRows false queries autocommit)
        rss session autocommit).acc.rows.length > maxRows →
      (ExecuteMultiShard mode maxRows rss queries session autocommit false).qr = none ∧
      (ExecuteMultiShard mode maxRows rss queries session autocommit false).errs =
        [rowCapError maxRows]) ∧
    (rowCapError maxRows).code = ErrCode.RESOURCE_EXHAUSTED := by
  refine ⟨?_, ?_, ?_, rfl⟩
  · intro hig hlen
    unfold executeMultiShardOneShard
    by_cases hac : autocommit = true ∧ info.transactionID ≠ 0
    · rw [if_pos hac]
    · rw [if_neg hac]
      cases hg : getQueryService rs info with
      | error e0 => rfl
      | ok p =>
          obtain ⟨h0, qs0⟩ := p
          cases he : (executeCore rs q session qs0 h0 info).err with
          | some e0 => simp [he]
          | none => simp [he, hig, Nat.not_le.mpr hlen]
  · intro herr hgate
    unfold executeMultiShardOneShard at herr ⊢
    by_cases hac : autocommit = true ∧ info.transactionID ≠ 0
    · rw [if_pos hac] at herr
      cases herr
    · rw [if_neg hac] at herr ⊢
      cases hg : getQueryService rs info with
      | error e0 => simp [hg] at herr
      | ok p =>
          obtain ⟨h0, qs0⟩ := p
          cases he : (executeCore rs q session qs0 h0 info).err with
          | some e0 => simp [hg, he] at herr
          | none =>
              refine ⟨(executeCore rs q session qs0 h0 info).innerqr, ?_⟩
              have hg2 : (ignore || decide (acc.rows.length ≤ maxRows)) = true := by
                rcases hgate with h1 | h1
                · rw [h1]; rfl
                · simp [h1]
              simp [he, hg2]
  · intro hlen hover
    unfold ExecuteMultiShard
    rw [if_neg (not_not_intro hlen)]
    simp [hover]

/-- Witness for C1: a session holding a live reserved connection (id 42)
and no transaction requirement selects action `nothing`. -/
theorem actionInfo_selects_shard_action_witness :
    ¬ shouldBeginCond demoTarget reservedSession false ∧
    ¬ shouldReserveCond demoTarget reservedSession ∧
    (actionInfo demoTarget reservedSession false).actionNeeded = ActionNeeded.nothing := by
  have hB : ¬ shouldBeginCond demoTarget reservedSession false := by decide
  have hR : ¬ shouldReserveCond demoTarget reservedSession := by decide
  exact ⟨hB, hR,
    (actionInfo_selects_shard_action demoTarget reservedSession false).2.2.2.mpr ⟨hB, hR⟩⟩

/-- Witness for C2: a reserved connection (id 42) with no transaction loses
its connection (CRServerGone); the closure re-issues the call once as a
`reserve` on the same pinned handle and resets the shard session first. -/
theorem scatter_transparent_retry_witness :
    retryCond reservedInfo serverGoneError lostConnRS.target = true ∧
    (executeMultiShardOneShard 1000 false lostConnRS demoQuery reservedSession
        false reservedInfo emptyResult).calls =
      [{ handle := QSHandle.byAlias demoAlias, action := ActionNeeded.nothing },
       { handle := QSHandle.byAlias demoAlias, action := ActionNeeded.reserve }] ∧
    (executeMultiShardOneShard 1000 false lostConnRS demoQuery reservedSession
        false reservedInfo emptyResult).session =
      reservedSession.resetShard reservedInfo.tabletAlias := by
  have hr : retryCond reservedInfo serverGoneError lostConnRS.target = true := by
    decide
  have hmain := (scatter_transparent_retry 1000 false lostConnRS demoQuery
      "select id from t" [] reservedSession false reservedInfo emptyResult
      (QSHandle.byAlias demoAlias) lostConnQS serverGoneError
      (by decide) rfl).1 rfl rfl
  obtain ⟨hcalls, hsess⟩ := hmain.1 hr
  refine ⟨hr, ?_, hsess⟩
  rw [hcalls]
  rfl

/-- Witness for C3: a shard returning `ABORTED` ends the call with the
rollback flag set and exactly one rollback invocation. -/
theorem rollback_on_exhausted_or_aborted_witness :
    some abortedError ∈ (multiGoTransaction TxMode.multi
      (execAction 1000 false [demoQuery] false) [abortingRS] emptySession false).errs ∧
    abortedError.code = ErrCode.ABORTED ∧
    (multiGoTransaction TxMode.multi (execAction 1000 false [demoQuery] false)
      [abortingRS] emptySession false).session.mustRollback = true ∧
    (multiGoTransaction TxMode.multi (execAction 1000 false [demoQuery] false)
      [abortingRS] emptySession false).rollbackCalls = 1 := by
  have hmain := rollback_on_exhausted_or_aborted TxMode.multi
    (execAction 1000 false [demoQuery] false) [abortingRS] emptySession false
    (execAction_preservesRollbackFlag 1000 false [demoQuery] false)
  have hmem : some abortedError ∈ (multiGoTransaction TxMode.multi
      (execAction 1000 false [demoQuery] false) [abortingRS] emptySession false).errs := by
    decide
  have hflag := hmain.1 abortedError hmem (Or.inr rfl)
  have hcnt := hmain.2 (List.cons_ne_nil _ _)
  rw [hflag] at hcnt
  exact ⟨hmem, rfl, hflag, by simpa using hcnt⟩

/-- Witness for C4: a session holding reserved id 42 pinned to `demoAlias`
resolves its query service through `QueryServiceByAlias demoAlias`. -/
theorem reserved_connection_routes_by_alias_witness :
    reservedSession.inReservedConn = true ∧
    reservedSession.find demoRS.target.keyspace demoRS.target.shard
      demoRS.target.tabletType = (0, 42, some demoAlias) ∧
    (42 : Int) ≠ 0 ∧
    getQueryService demoRS (actionInfo demoRS.target reservedSession false) =
      (demoRS.gateway.queryServiceByAlias demoAlias demoRS.target).map
        (fun q => (QSHandle.byAlias demoAlias, q)) := by
  exact ⟨rfl, by decide,
    by decide,
    reserved_connection_routes_by_alias demoRS reservedSession false demoAlias
      0 42 rfl (by decide) (by decide)⟩

/-- Witness for C5 (amended): a one-shard success returns the accumulated
result together with the recorded errors. -/
theorem executeMultiShard_result_with_errors_witness :
    ([demoRS] : List ResolvedShard).length = [demoQuery].length ∧
    (multiGoTransaction TxMode.multi (execAction 5 false [demoQuery] false)
      [demoRS] emptySession false).acc.rows.length ≤ 5 ∧
    (ExecuteMultiShard TxMode.multi 5 [demoRS] [demoQuery] emptySession false false).qr =
      some (multiGoTransaction TxMode.multi (execAction 5 false [demoQuery] false)
        [demoRS] emptySession false).acc ∧
    (ExecuteMultiShard TxMode.multi 5 [demoRS] [demoQuery] emptySession false false).errs =
      getErrors (multiGoTransaction TxMode.multi (execAction 5 false [demoQuery] false)
        [demoRS] emptySession false).errs := by
  have hcap : (multiGoTransaction TxMode.multi (execAction 5 false [demoQuery] false)
      [demoRS] emptySession false).acc.rows.length ≤ 5 := by decide
  have hmain := executeMultiShard_result_with_errors TxMode.multi 5 [demoRS]
    [demoQuery] emptySession false false rfl (Or.inr hcap)
  exact ⟨rfl, hcap, hmain.1, hmain.2⟩

/-- Witness for C6 (amended): two one-row shards against a cap of 1 exceed
the cap, so the call discards the result and returns the single
`RESOURCE_EXHAUSTED` error. -/
theorem row_cap_gating_witness :
    (multiGoTransaction TxMode.multi (execAction 1 false [demoQuery, demoQuery] false)
      [demoRS, demoRS] emptySession false).acc.rows.length > 1 ∧
    (ExecuteMultiShard TxMode.multi 1 [demoRS, demoRS] [demoQuery, demoQuery]
      emptySession false false).qr = none ∧
    (ExecuteMultiShard TxMode.multi 1 [demoRS, demoRS] [demoQuery, demoQuery]
      emptySession false false).errs = [rowCapError 1] := by
  have hover : (multiGoTransaction TxMode.multi
      (execAction 1 false [demoQuery, demoQuery] false)
      [demoRS, demoRS] emptySession false).acc.rows.length > 1 := by decide
  have hmain := (row_cap_gating 1 false demoRS demoQuery emptySession false
    { actionNeeded := ActionNeeded.nothing, reservedID := 0, transactionID := 0,
      tabletAlias := none }
    emptyResult TxMode.multi [demoRS, demoRS] [demoQuery, demoQuery]).2.2.1
    rfl hover
  exact ⟨hover, hmain.1, hmain.2⟩

/-- Witness for C7: autocommit with incoming transaction id 5 is rejected
with the precondition error and no tablet call. -/
theorem autocommit_zero_transaction_precondition_witness :
    ((true : Bool) = true ∧ (5 : Int) ≠ 0) ∧
    (executeMultiShardOneShard 1000 false demoRS demoQuery emptySession true
      { actionNeeded := ActionNeeded.nothing, reservedID := 0, transactionID := 5,
        tabletAlias := none } emptyResult).err =
      some (autocommitTransactionError 5) ∧
    (executeMultiShardOneShard 1000 false demoRS demoQuery emptySession true
      { actionNeeded := ActionNeeded.nothing, reservedID := 0, transactionID := 5,
        tabletAlias := none } emptyResult).calls = [] ∧
    (executeMultiShardOneShard 1000 false demoRS demoQuery emptySession true
      { actionNeeded := ActionNeeded.nothing, reservedID := 0, transactionID := 5,
        tabletAlias := none } emptyResult).newInfo = none := by
  have hmain := (autocommit_zero_transaction_precondition 1000 false demoRS
    demoQuery "select id from t" [] emptySession true
    { actionNeeded := ActionNeeded.nothing, reservedID := 0, transactionID := 5,
      tabletAlias := none } emptyResult).2.1 ⟨rfl, by decide⟩
  exact ⟨⟨rfl, by decide⟩, hmain.1, hmain.2.1, hmain.2.2⟩

/-- Witness for C8: after the fields were sent, a message with no rows is
dropped without invoking the callback. -/
theorem streaming_funnel_fields_first_witness :
    (true : Bool) = true ∧ emptyResult.rows = [] ∧
    (processOneStreamingResult true emptyResult demoCallback).invoked = false ∧
    (processOneStreamingResult true emptyResult demoCallback).ret = none := by
  have hmain := (streaming_funnel_fields_first true emptyResult demoCallback).2.1
    rfl rfl
  exact ⟨rfl, rfl, hmain.1, hmain.2.1⟩

/-- Witness for C9: with a grace period of 1 and a failure first recorded
at time 0, a transient stream end at time 5 cancels the shared context and
surfaces the `DEADLINE_EXCEEDED` error. -/
theorem messageStream_grace_period_retry_witness :
    transientEnd StreamEnd.eof = true ∧
    (1 : Nat) ≤ 5 - (demoTracker.record demoTarget 5).1 ∧
    messageStreamIteration 1 5 demoTarget StreamEnd.eof false false demoTracker =
      MsgLoopStep.ret true (some messageStreamDeadlineError) := by
  have hgrace : (1 : Nat) ≤ 5 - (demoTracker.record demoTarget 5).1 := by decide
  have hmain := (messageStream_grace_period_retry 1 5 demoTarget StreamEnd.eof
    false false demoTracker).2.2.1 rfl rfl hgrace
  exact ⟨rfl, hgrace, hmain.1⟩

/-- Witness for C10: a closure over a reserved session whose tablet call
succeeds with the ids it was given makes one call, produces a `nil` update,
and the step leaves the shard-session list unchanged. -/
theorem session_upsert_gating_witness :
    (execAction 1000 false [demoQuery] false demoRS 0 demoState.session
      (actionInfo demoRS.target demoState.session false) demoState.acc).calls.length = 1 ∧
    (execAction 1000 false [demoQuery] false demoRS 0 demoState.session
      (actionInfo demoRS.target demoState.session false) demoState.acc).newInfo = none ∧
    (multiGoOneShard TxMode.multi (execAction 1000 false [demoQuery] false)
      demoRS 0 false demoState).session.shardSessions =
      demoState.session.shardSessions := by
  have h1 : (execAction 1000 false [demoQuery] false demoRS 0 demoState.session
      (actionInfo demoRS.target demoState.session false) demoState.acc).calls.length = 1 := by
    decide
  have h2 : (execAction 1000 false [demoQuery] false demoRS 0 demoState.session
      (actionInfo demoRS.target demoState.session false) demoState.acc).newInfo = none := by
    decide
  have hmain := (session_upsert_gating TxMode.multi
    (execAction 1000 false [demoQuery] false) demoRS 0 false demoState
    1000 false [demoQuery]).2.2.2 h1 h2
  exact ⟨h1, h2, hmain⟩

end Vitess
